import Mathlib

/-!
# Verification of the monkeycmd text-editing core

Shallow embedding of the cursor/selection text-editing engine of the
monkeycmd keyboard-shortcut trainer:

* `src/unnamed/part_000` — the `TerminalEditor` class (edit-state operations,
  boundary finders, key dispatcher);
* `src/js/challenges.js` — the command table, challenge generators and the
  validator.

Text buffers are modelled as `List Char` (JS strings are sequences of UTF-16
code units; all texts handled here are in the BMP, where one code unit is one
character).  Cursor positions and selection offsets are `Nat` — the JS code
only ever stores non-negative offsets (loops stop at 0, `Math.max(0, …)`
clamps) — except where a host-supplied value may be negative, which is
modelled as `Int` and clamped exactly as the source does.

Randomness: each challenge generator performs exactly one
`Math.floor(Math.random() * k)` draw.  That draw is modelled as an extra
parameter `r : Nat` reduced mod `k` (`r % k` ranges over exactly the values
`floor(random * k)` takes whenever `k > 0`; every instance proved below has
`k > 0`).

DOM rendering, HTML escaping and event-listener plumbing are out of the
verified core (the spec's §1 scope) and are not modelled; the state-changing
part of every method is transcribed verbatim.
-/

set_option maxHeartbeats 4000000
set_option maxRecDepth 8000

/-- JS `\s` character class (the whitespace predicate used by both modules):
space, tab, LF, VT, FF, CR, NBSP, and the Unicode space separators. -/
def isWs (c : Char) : Bool :=
  c = ' ' || c = '\t' || c = '\n' || c = '\u000B' || c = '\u000C' || c = '\r' ||
  c = '\u00A0' || c = '\u1680' ||
  ('\u2000' ≤ c && c ≤ '\u200A') ||
  c = '\u2028' || c = '\u2029' || c = '\u202F' || c = '\u205F' || c = '\u3000' ||
  c = '\uFEFF'

/-- `/\s/.test(text[p])`.  `t.get? p` models the JS index access `text[p]`
(`some` in range, `undefined` otherwise); `/\s/.test(undefined)` tests the
string `"undefined"`, which contains no whitespace, so the result is `false`.
This is also `pos < text.length && /\s/.test(text[pos])`, the guard of the
rightward whitespace skips, since `t.get? p` is `some` exactly when
`p < t.length`. -/
def wsAt (t : List Char) (p : Nat) : Bool :=
  match t.get? p with
  | some c => isWs c
  | none => false

/-- `/\S/.test(text[p])`.  Out of range `/\S/.test(undefined)` tests
`"undefined"`, which does contain non-whitespace, so the result is `true`. -/
def nonWsAt (t : List Char) (p : Nat) : Bool :=
  match t.get? p with
  | some c => !isWs c
  | none => true

/-- `pos < text.length && /\S/.test(text[pos])` — the guard of the rightward
word skip (`t.get? p` is `some` exactly when `p < t.length`). -/
def inWordAt (t : List Char) (p : Nat) : Bool :=
  match t.get? p with
  | some c => !isWs c
  | none => false

/-- `text[p] !== '\n'`.  Out of range, `undefined !== '\n'` is `true`. -/
def notNewlineAt (t : List Char) (p : Nat) : Bool :=
  match t.get? p with
  | some c => !(c == '\n')
  | none => true

/-- `pos < text.length && text[pos] !== '\n'` — the guard of the rightward
line-end walk. -/
def inLineAt (t : List Char) (p : Nat) : Bool :=
  match t.get? p with
  | some c => !(c == '\n')
  | none => false

/-- `while (pos > 0 && /\s/.test(text[pos])) pos--;` -/
def skipWsLeft (t : List Char) : Nat → Nat
  | 0 => 0
  | p + 1 => if wsAt t (p + 1) then skipWsLeft t p else p + 1

/-- `while (pos > 0 && /\S/.test(text[pos - 1])) pos--;` -/
def skipBackToWordStart (t : List Char) : Nat → Nat
  | 0 => 0
  | p + 1 => if nonWsAt t p then skipBackToWordStart t p else p + 1

/-- `findWordBoundaryLeft(text, cursorPos)` from `challenges.js`; the loop
bodies are identical to the `direction === 'left'` branch of
`TerminalEditor._findWordBoundary`. -/
def findWordBoundaryLeft (t : List Char) (cursorPos : Nat) : Nat :=
  if cursorPos = 0 then 0
  else skipBackToWordStart t (skipWsLeft t (cursorPos - 1))

/-- `while (pos < text.length && /\S/.test(text[pos])) pos++;` — the loop
advances at most `text.length` times, which the fuel argument makes explicit. -/
def skipWordRight (t : List Char) : Nat → Nat → Nat
  | 0, p => p
  | fuel + 1, p =>
    if inWordAt t p then skipWordRight t fuel (p + 1) else p

/-- `while (pos < text.length && /\s/.test(text[pos])) pos++;` -/
def skipWsRight (t : List Char) : Nat → Nat → Nat
  | 0, p => p
  | fuel + 1, p =>
    if wsAt t p then skipWsRight t fuel (p + 1) else p

/-- `findWordBoundaryRight(text, cursorPos)` from `challenges.js`; identical
to the `right` branch of `TerminalEditor._findWordBoundary`. -/
def findWordBoundaryRight (t : List Char) (cursorPos : Nat) : Nat :=
  if cursorPos ≥ t.length then t.length
  else skipWsRight t t.length (skipWordRight t t.length cursorPos)

/-- `TerminalEditor._findLineStart`:
`while (pos > 0 && text[pos - 1] !== '\n') pos--;`. -/
def findLineStart (t : List Char) : Nat → Nat
  | 0 => 0
  | p + 1 => if notNewlineAt t p then findLineStart t p else p + 1

/-- Fueled body of `TerminalEditor._findLineEnd`:
`while (pos < text.length && text[pos] !== '\n') pos++;`. -/
def findLineEndAux (t : List Char) : Nat → Nat → Nat
  | 0, p => p
  | fuel + 1, p =>
    if inLineAt t p then findLineEndAux t fuel (p + 1) else p

/-- `TerminalEditor._findLineEnd`. -/
def findLineEnd (t : List Char) (p : Nat) : Nat :=
  findLineEndAux t t.length p

/-- Direction argument (`'left'` / `'right'`). -/
inductive Dir
  | left
  | right
deriving DecidableEq, Repr

/-- Direction argument of `_deleteCharacter` (`'backward'` / `'forward'`). -/
inductive DelDir
  | backward
  | forward
deriving DecidableEq, Repr

/-- The editor's selection object `{ start, end, anchor }`
(`end` is a Lean keyword, so the field is called `stop`). -/
structure Sel where
  start : Nat
  stop : Nat
  anchor : Nat
deriving DecidableEq, Repr

/-- The mutable state of a `TerminalEditor`:
`this.text`, `this.cursorPosition`, `this.selection`. -/
structure EditorState where
  text : List Char
  cursorPosition : Nat
  selection : Option Sel
deriving DecidableEq, Repr

namespace TerminalEditor

/-- `_findWordBoundary(position, direction)` — dispatches on the direction;
its two branches are the same loops as `findWordBoundaryLeft` /
`findWordBoundaryRight` above. -/
def findWordBoundary (t : List Char) (position : Nat) : Dir → Nat
  | .left => findWordBoundaryLeft t position
  | .right => findWordBoundaryRight t position

/-- `moveCursor(position)`: `this.cursorPosition = Math.max(0,
Math.min(position, this.text.length)); this.selection = null;`.
The argument is an `Int` because the host may pass a negative value. -/
def moveCursor (s : EditorState) (position : Int) : EditorState :=
  { s with
    cursorPosition := (max 0 (min position (s.text.length : Int))).toNat
    selection := none }

/-- `moveByWord(direction)`. -/
def moveByWord (s : EditorState) (dir : Dir) : EditorState :=
  { s with
    cursorPosition := findWordBoundary s.text s.cursorPosition dir
    selection := none }

/-- `moveToLineStart()`. -/
def moveToLineStart (s : EditorState) : EditorState :=
  { s with
    cursorPosition := findLineStart s.text s.cursorPosition
    selection := none }

/-- `moveToLineEnd()`. -/
def moveToLineEnd (s : EditorState) : EditorState :=
  { s with
    cursorPosition := findLineEnd s.text s.cursorPosition
    selection := none }

/-- `_updateSelection(anchor, current)`: collapse to `null` when the anchor
meets the current position, otherwise store the normalized range. -/
def updateSelection (s : EditorState) (anchor current : Nat) : EditorState :=
  if anchor = current then { s with selection := none }
  else
    { s with
      selection := some ⟨min anchor current, max anchor current, anchor⟩ }

/-- `selectByWord(direction)`. -/
def selectByWord (s : EditorState) (dir : Dir) : EditorState :=
  let anchorPos := match s.selection with
    | some sel => sel.anchor
    | none => s.cursorPosition
  let newPosition := findWordBoundary s.text s.cursorPosition dir
  updateSelection { s with cursorPosition := newPosition } anchorPos newPosition

/-- `selectToLineStart()`. -/
def selectToLineStart (s : EditorState) : EditorState :=
  let anchorPos := match s.selection with
    | some sel => sel.anchor
    | none => s.cursorPosition
  let lineStart := findLineStart s.text s.cursorPosition
  updateSelection { s with cursorPosition := lineStart } anchorPos lineStart

/-- `selectToLineEnd()`. -/
def selectToLineEnd (s : EditorState) : EditorState :=
  let anchorPos := match s.selection with
    | some sel => sel.anchor
    | none => s.cursorPosition
  let lineEnd := findLineEnd s.text s.cursorPosition
  updateSelection { s with cursorPosition := lineEnd } anchorPos lineEnd

/-- `_deleteSelection()`: remove `text[start:end]`, cursor to `start`,
selection cleared.  `text.slice(0, a) + text.slice(b)` is
`take a ++ drop b`. -/
def deleteSelection (s : EditorState) : EditorState :=
  match s.selection with
  | none => s
  | some sel =>
    let a := min sel.start sel.stop
    let b := max sel.start sel.stop
    { text := s.text.take a ++ s.text.drop b
      cursorPosition := a
      selection := none }

/-- `deleteWord()`. -/
def deleteWord (s : EditorState) : EditorState :=
  match s.selection with
  | some _ => deleteSelection s
  | none =>
    let wordStart := findWordBoundaryLeft s.text s.cursorPosition
    { s with
      text := s.text.take wordStart ++ s.text.drop s.cursorPosition
      cursorPosition := wordStart }

/-- `deleteToLineStart()`. -/
def deleteToLineStart (s : EditorState) : EditorState :=
  match s.selection with
  | some _ => deleteSelection s
  | none =>
    let lineStart := findLineStart s.text s.cursorPosition
    { s with
      text := s.text.take lineStart ++ s.text.drop s.cursorPosition
      cursorPosition := lineStart }

/-- `deleteToLineEnd()` — the cursor stays at the current position. -/
def deleteToLineEnd (s : EditorState) : EditorState :=
  match s.selection with
  | some _ => deleteSelection s
  | none =>
    let lineEnd := findLineEnd s.text s.cursorPosition
    { s with text := s.text.take s.cursorPosition ++ s.text.drop lineEnd }

/-- `deleteWordForward()` — the cursor stays at the current position. -/
def deleteWordForward (s : EditorState) : EditorState :=
  match s.selection with
  | some _ => deleteSelection s
  | none =>
    let wordEnd := findWordBoundary s.text s.cursorPosition .right
    { s with text := s.text.take s.cursorPosition ++ s.text.drop wordEnd }

/-- `selectAll()` — on empty text only the selection is cleared (the cursor
is left untouched). -/
def selectAll (s : EditorState) : EditorState :=
  if s.text.length = 0 then { s with selection := none }
  else
    { s with
      selection := some ⟨0, s.text.length, 0⟩
      cursorPosition := s.text.length }

/-- `_moveCursorLeft()`: with a selection active, collapse to its start. -/
def moveCursorLeft (s : EditorState) : EditorState :=
  match s.selection with
  | some sel =>
    { s with cursorPosition := min sel.start sel.stop, selection := none }
  | none =>
    if s.cursorPosition > 0 then
      { s with cursorPosition := s.cursorPosition - 1 }
    else s

/-- `_moveCursorRight()`: with a selection active, collapse to its end. -/
def moveCursorRight (s : EditorState) : EditorState :=
  match s.selection with
  | some sel =>
    { s with cursorPosition := max sel.start sel.stop, selection := none }
  | none =>
    if s.cursorPosition < s.text.length then
      { s with cursorPosition := s.cursorPosition + 1 }
    else s

/-- `_extendSelection(direction)`. -/
def extendSelection (s : EditorState) (dir : Dir) : EditorState :=
  let anchorPos := match s.selection with
    | some sel => sel.anchor
    | none => s.cursorPosition
  let s2 := match dir with
    | .left =>
      if s.cursorPosition > 0 then
        { s with cursorPosition := s.cursorPosition - 1 }
      else s
    | .right =>
      if s.cursorPosition < s.text.length then
        { s with cursorPosition := s.cursorPosition + 1 }
      else s
  updateSelection s2 anchorPos s2.cursorPosition

/-- `_insertCharacter(char)`: an active selection is deleted first. -/
def insertCharacter (s : EditorState) (c : Char) : EditorState :=
  let s1 := match s.selection with
    | some _ => deleteSelection s
    | none => s
  { s1 with
    text := s1.text.take s1.cursorPosition ++ [c] ++ s1.text.drop s1.cursorPosition
    cursorPosition := s1.cursorPosition + 1 }

/-- `_deleteCharacter(direction)`. -/
def deleteCharacter (s : EditorState) (dir : DelDir) : EditorState :=
  match s.selection with
  | some _ => deleteSelection s
  | none =>
    match dir with
    | .backward =>
      if s.cursorPosition > 0 then
        { s with
          text := s.text.take (s.cursorPosition - 1) ++ s.text.drop s.cursorPosition
          cursorPosition := s.cursorPosition - 1 }
      else s
    | .forward =>
      if s.cursorPosition < s.text.length then
        { s with
          text := s.text.take s.cursorPosition ++ s.text.drop (s.cursorPosition + 1) }
      else s

/-- The state exposed by `getState()` (the selection is exposed without its
anchor). -/
structure PublicState where
  text : List Char
  cursorPosition : Nat
  selection : Option (Nat × Nat)
deriving DecidableEq, Repr

/-- `getState()`. -/
def getState (s : EditorState) : PublicState :=
  ⟨s.text, s.cursorPosition, s.selection.map fun sel => (sel.start, sel.stop)⟩

/-- The selection object a host may pass to `setState`; `anchor` is optional
in the source (`state.selection.anchor || state.selection.start`). -/
structure SelPatch where
  start : Nat
  stop : Nat
  anchor : Option Nat
deriving DecidableEq, Repr

/-- A `setState` argument: each field is optional (`!== undefined` checks);
the `selection` field itself can be present-but-null. -/
structure StatePatch where
  text : Option (List Char)
  cursorPosition : Option Int
  selection : Option (Option SelPatch)
deriving DecidableEq, Repr

/-- `setState(state)`.  The cursor is clamped to the (possibly new) text
length; the selection is stored exactly as supplied — no clamping and no
normalization — with `anchor || start` meaning JS falsy-or: an absent *or
zero* anchor falls back to `start`. -/
def setState (s : EditorState) (st : StatePatch) : EditorState :=
  let s := match st.text with
    | some txt => { s with text := txt }
    | none => s
  let s := match st.cursorPosition with
    | some p =>
      { s with cursorPosition := (max 0 (min p (s.text.length : Int))).toNat }
    | none => s
  let s := match st.selection with
    | some (some sp) =>
      { s with
        selection := some ⟨sp.start, sp.stop,
          match sp.anchor with
          | some a => if a = 0 then sp.start else a
          | none => sp.start⟩ }
    | some none => { s with selection := none }
    | none => s
  s

end TerminalEditor

/-! ## `src/js/challenges.js` — command table, generators, validator -/

/-- Operating-system selector (`'mac' | 'windows' | 'linux'`). -/
inductive OS
  | mac
  | windows
  | linux
deriving DecidableEq, Repr

/-- A physical key name.  `char c` stands for any one-character key string
(`key.length === 1`); the named constructors are the multi-character key
names the source tests for; `other` stands for any other multi-character
key name (e.g. function keys). -/
inductive Key
  | char (c : Char)
  | arrowLeft
  | arrowRight
  | backspace
  | delKey
  | home
  | endKey
  | enter
  | other
deriving DecidableEq, Repr

/-- `key.length === 1`. -/
def keyLen1 : Key → Bool
  | .char _ => true
  | _ => false

/-- `key.toLowerCase() === c` for a single character `c`: true exactly for a
one-character key whose lowercase form is `c` (the lowercase names of the
multi-character keys have length > 1, so they never match). -/
def keyLowerEq (k : Key) (c : Char) : Bool :=
  match k with
  | .char c2 => c2.toLower = c
  | _ => false

/-- The character of a one-character key; only read under `keyLen1`. -/
def charOfKey : Key → Char
  | .char c => c
  | _ => ' '

/-- A `keyCode` entry of the command table: modifier flags (absent fields
default to `false`) plus the key name. -/
structure KeyCodeSpec where
  altKey : Bool := false
  ctrlKey : Bool := false
  metaKey : Bool := false
  shiftKey : Bool := false
  key : Key
deriving DecidableEq, Repr

/-- A per-OS entry `{ keys, keyCode }` of a command. -/
structure OSConfig where
  keys : List String
  keyCode : KeyCodeSpec
deriving DecidableEq, Repr

/-- A command-table entry.  Every entry of the source defines all three OS
configurations. -/
structure Command where
  name : String
  description : String
  mac : OSConfig
  windows : OSConfig
  linux : OSConfig
deriving DecidableEq, Repr

/-- The static `COMMANDS` table, as a lookup from the command identifier
(JS object property access `COMMANDS[commandType]`). -/
def COMMANDS (commandType : String) : Option Command :=
  if commandType = "DELETE_WORD" then some
    { name := "Delete Word", description := "Delete the previous word"
      mac := ⟨["Option", "Delete"], { altKey := true, key := .backspace }⟩
      windows := ⟨["Ctrl", "Backspace"], { ctrlKey := true, key := .backspace }⟩
      linux := ⟨["Alt", "Backspace"], { altKey := true, key := .backspace }⟩ }
  else if commandType = "DELETE_WORD_FORWARD" then some
    { name := "Delete Word Forward", description := "Delete the next word"
      mac := ⟨["Fn", "Option", "Delete"], { altKey := true, key := .delKey }⟩
      windows := ⟨["Ctrl", "Delete"], { ctrlKey := true, key := .delKey }⟩
      linux := ⟨["Alt", "D"], { altKey := true, key := .char 'd' }⟩ }
  else if commandType = "MOVE_WORD_LEFT" then some
    { name := "Move Word Left", description := "Move cursor one word to the left"
      mac := ⟨["Option", "Left"], { altKey := true, key := .arrowLeft }⟩
      windows := ⟨["Ctrl", "Left"], { ctrlKey := true, key := .arrowLeft }⟩
      linux := ⟨["Ctrl", "Left"], { ctrlKey := true, key := .arrowLeft }⟩ }
  else if commandType = "MOVE_WORD_RIGHT" then some
    { name := "Move Word Right", description := "Move cursor one word to the right"
      mac := ⟨["Option", "Right"], { altKey := true, key := .arrowRight }⟩
      windows := ⟨["Ctrl", "Right"], { ctrlKey := true, key := .arrowRight }⟩
      linux := ⟨["Ctrl", "Right"], { ctrlKey := true, key := .arrowRight }⟩ }
  else if commandType = "JUMP_LINE_START" then some
    { name := "Jump to Line Start", description := "Jump cursor to start of line"
      mac := ⟨["Command", "Left"], { metaKey := true, key := .arrowLeft }⟩
      windows := ⟨["Home"], { key := .home }⟩
      linux := ⟨["Home"], { key := .home }⟩ }
  else if commandType = "JUMP_LINE_END" then some
    { name := "Jump to Line End", description := "Jump cursor to end of line"
      mac := ⟨["Command", "Right"], { metaKey := true, key := .arrowRight }⟩
      windows := ⟨["End"], { key := .endKey }⟩
      linux := ⟨["End"], { key := .endKey }⟩ }
  else if commandType = "DELETE_TO_LINE_START" then some
    { name := "Delete to Line Start"
      description := "Delete everything from cursor to start of line"
      mac := ⟨["Command", "Delete"], { metaKey := true, key := .backspace }⟩
      windows := ⟨["Ctrl", "Shift", "Backspace"],
        { ctrlKey := true, shiftKey := true, key := .backspace }⟩
      linux := ⟨["Ctrl", "U"], { ctrlKey := true, key := .char 'u' }⟩ }
  else if commandType = "DELETE_TO_LINE_END" then some
    { name := "Delete to Line End"
      description := "Delete everything from cursor to end of line"
      mac := ⟨["Control", "K"], { ctrlKey := true, key := .char 'k' }⟩
      windows := ⟨["Ctrl", "Shift", "Delete"],
        { ctrlKey := true, shiftKey := true, key := .delKey }⟩
      linux := ⟨["Ctrl", "K"], { ctrlKey := true, key := .char 'k' }⟩ }
  else if commandType = "CONTROL_DELETE_TO_START" then some
    { name := "Kill Line Start"
      description := "Delete from cursor to start of line (terminal style)"
      mac := ⟨["Control", "U"], { ctrlKey := true, key := .char 'u' }⟩
      windows := ⟨["Ctrl", "U"], { ctrlKey := true, key := .char 'u' }⟩
      linux := ⟨["Ctrl", "U"], { ctrlKey := true, key := .char 'u' }⟩ }
  else if commandType = "SELECT_WORD_LEFT" then some
    { name := "Select Word Left", description := "Select the word to the left"
      mac := ⟨["Option", "Shift", "Left"],
        { altKey := true, shiftKey := true, key := .arrowLeft }⟩
      windows := ⟨["Ctrl", "Shift", "Left"],
        { ctrlKey := true, shiftKey := true, key := .arrowLeft }⟩
      linux := ⟨["Ctrl", "Shift", "Left"],
        { ctrlKey := true, shiftKey := true, key := .arrowLeft }⟩ }
  else if commandType = "SELECT_WORD_RIGHT" then some
    { name := "Select Word Right", description := "Select the word to the right"
      mac := ⟨["Option", "Shift", "Right"],
        { altKey := true, shiftKey := true, key := .arrowRight }⟩
      windows := ⟨["Ctrl", "Shift", "Right"],
        { ctrlKey := true, shiftKey := true, key := .arrowRight }⟩
      linux := ⟨["Ctrl", "Shift", "Right"],
        { ctrlKey := true, shiftKey := true, key := .arrowRight }⟩ }
  else if commandType = "SELECT_TO_LINE_START" then some
    { name := "Select to Line Start"
      description := "Select from cursor to start of line"
      mac := ⟨["Command", "Shift", "Left"],
        { metaKey := true, shiftKey := true, key := .arrowLeft }⟩
      windows := ⟨["Shift", "Home"], { shiftKey := true, key := .home }⟩
      linux := ⟨["Shift", "Home"], { shiftKey := true, key := .home }⟩ }
  else if commandType = "SELECT_TO_LINE_END" then some
    { name := "Select to Line End"
      description := "Select from cursor to end of line"
      mac := ⟨["Command", "Shift", "Right"],
        { metaKey := true, shiftKey := true, key := .arrowRight }⟩
      windows := ⟨["Shift", "End"], { shiftKey := true, key := .endKey }⟩
      linux := ⟨["Shift", "End"], { shiftKey := true, key := .endKey }⟩ }
  else if commandType = "SELECT_ALL" then some
    { name := "Select All", description := "Select all text"
      mac := ⟨["Command", "A"], { metaKey := true, key := .char 'a' }⟩
      windows := ⟨["Ctrl", "A"], { ctrlKey := true, key := .char 'a' }⟩
      linux := ⟨["Ctrl", "A"], { ctrlKey := true, key := .char 'a' }⟩ }
  else if commandType = "SELECT_CHAR_LEFT" then some
    { name := "Select Character Left"
      description := "Extend selection one character to the left"
      mac := ⟨["Shift", "Left"], { shiftKey := true, key := .arrowLeft }⟩
      windows := ⟨["Shift", "Left"], { shiftKey := true, key := .arrowLeft }⟩
      linux := ⟨["Shift", "Left"], { shiftKey := true, key := .arrowLeft }⟩ }
  else if commandType = "SELECT_CHAR_RIGHT" then some
    { name := "Select Character Right"
      description := "Extend selection one character to the right"
      mac := ⟨["Shift", "Right"], { shiftKey := true, key := .arrowRight }⟩
      windows := ⟨["Shift", "Right"], { shiftKey := true, key := .arrowRight }⟩
      linux := ⟨["Shift", "Right"], { shiftKey := true, key := .arrowRight }⟩ }
  else if commandType = "CONTROL_LINE_START" then some
    { name := "Control Line Start", description := "Move cursor to start of line"
      mac := ⟨["Control", "A"], { ctrlKey := true, key := .char 'a' }⟩
      windows := ⟨["Home"], { key := .home }⟩
      linux := ⟨["Ctrl", "A"], { ctrlKey := true, key := .char 'a' }⟩ }
  else if commandType = "CONTROL_LINE_END" then some
    { name := "Control Line End", description := "Move cursor to end of line"
      mac := ⟨["Control", "E"], { ctrlKey := true, key := .char 'e' }⟩
      windows := ⟨["End"], { key := .endKey }⟩
      linux := ⟨["Ctrl", "E"], { ctrlKey := true, key := .char 'e' }⟩ }
  else if commandType = "CONTROL_FORWARD" then some
    { name := "Move Forward", description := "Move cursor forward one character"
      mac := ⟨["Control", "F"], { ctrlKey := true, key := .char 'f' }⟩
      windows := ⟨["Right"], { key := .arrowRight }⟩
      linux := ⟨["Ctrl", "F"], { ctrlKey := true, key := .char 'f' }⟩ }
  else if commandType = "CONTROL_BACKWARD" then some
    { name := "Move Backward", description := "Move cursor backward one character"
      mac := ⟨["Control", "B"], { ctrlKey := true, key := .char 'b' }⟩
      windows := ⟨["Left"], { key := .arrowLeft }⟩
      linux := ⟨["Ctrl", "B"], { ctrlKey := true, key := .char 'b' }⟩ }
  else none

/-- The OS-resolved command returned by `getCommandForOS`. -/
structure CommandForOS where
  name : String
  description : String
  keys : List String
  keyCode : KeyCodeSpec
deriving DecidableEq, Repr

/-- JS property access `command[os]`.  Every entry of `COMMANDS` defines all
three OS fields, so the source's `command[os] || command.mac` fallback can
never fire for this table. -/
def osConfigOf (c : Command) : OS → OSConfig
  | .mac => c.mac
  | .windows => c.windows
  | .linux => c.linux

/-- `getCommandForOS(commandType, os)` — returns `null` (not an error) when
the command identifier is unknown. -/
def getCommandForOS (commandType : String) (os : OS) : Option CommandForOS :=
  match COMMANDS commandType with
  | none => none
  | some command =>
    let osConfig := osConfigOf command os
    some ⟨command.name, command.description, osConfig.keys, osConfig.keyCode⟩

/-- `getCommand(commandType, os)` — delegates to `getCommandForOS`. -/
def getCommand (commandType : String) (os : OS) : Option CommandForOS :=
  getCommandForOS commandType os

/-- The `TEXT_POOL` sample texts. -/
def TEXT_POOL : List String :=
  [ "const result = calculateSum(a, b)"
  , "function handleClick(event) { return true }"
  , "import React from 'react'"
  , "let counter = 0"
  , "console.log('Hello World')"
  , "const users = await fetchData()"
  , "export default function App()"
  , "npm install lodash --save"
  , "git commit -m 'Initial commit'"
  , "docker run -p 3000:3000 myapp"
  , "SELECT * FROM users WHERE id = 1"
  , "python manage.py runserver"
  , "curl https://api.example.com/data"
  , "ssh user@remote-server.com"
  , "chmod 755 script.sh"
  , "grep -r 'pattern' ./src"
  , "cd /var/www/html"
  , "tar -xzvf archive.tar.gz"
  , "vim ~/.bashrc"
  , "brew install node"
  , "const data = JSON.parse(response)"
  , "return items.filter(x => x.active)"
  , "class UserService extends BaseService"
  , "interface Config { port: number }"
  , "throw new Error('Invalid input')"
  , "try { await connect() } catch (e) {}"
  , "const [state, setState] = useState()"
  , "addEventListener('click', handler)"
  , "document.getElementById('root')"
  , "process.env.NODE_ENV === 'production'" ]

/-- `getRandomItem(array)`: `array[Math.floor(Math.random() * array.length)]`,
with the draw modelled as `r % length`. -/
def getRandomItem {α : Type} [Inhabited α] (arr : List α) (r : Nat) : α :=
  arr.getD (r % arr.length) default

/-- A word span produced by `findWordBoundaries` (one `/\S+/g` match):
`{ start: match.index, end: match.index + match[0].length, word: match[0] }`. -/
structure WordSpan where
  start : Nat
  stop : Nat
  word : List Char
deriving DecidableEq, Repr, Inhabited

/-- State machine equivalent of the `/\S+/g` exec loop: scan the text once,
emitting a span for every maximal run of non-whitespace characters.  The
accumulator holds the start index and the reversed characters of the run in
progress. -/
def findWordBoundariesAux : List Char → Nat → Option (Nat × List Char) → List WordSpan
  | [], _, none => []
  | [], i, some (st, acc) => [⟨st, i, acc.reverse⟩]
  | c :: rest, i, none =>
    if isWs c then findWordBoundariesAux rest (i + 1) none
    else findWordBoundariesAux rest (i + 1) (some (i, [c]))
  | c :: rest, i, some (st, acc) =>
    if isWs c then ⟨st, i, acc.reverse⟩ :: findWordBoundariesAux rest (i + 1) none
    else findWordBoundariesAux rest (i + 1) (some (st, c :: acc))

/-- `findWordBoundaries(text)`. -/
def findWordBoundaries (t : List Char) : List WordSpan :=
  findWordBoundariesAux t 0 none

/-- A challenge's `expectedResult`:
`{ text, cursorPosition, selection? }` where the selection, when present, is
the `[start, end]` pair the generators store. -/
structure ExpectedResult where
  text : List Char
  cursorPosition : Nat
  selection : Option (Nat × Nat)
deriving DecidableEq, Repr

/-- A generated challenge.  The display-only fields are not modelled: `id`
(a fresh timestamp/random string), `instruction` (display text) and
`command` (the `getCommandForOS` lookup result, modelled separately). -/
structure Challenge where
  text : List Char
  cursorPosition : Nat
  expectedResult : ExpectedResult
deriving DecidableEq, Repr

/-- Builds a generator from its single random draw: `core` receives
`r % k t`, the modelled value of `Math.floor(Math.random() * k t)`. -/
def genOfDraw (k : List Char → Nat) (core : List Char → Nat → Option Challenge)
    (t : List Char) (r : Nat) : Option Challenge :=
  core t (r % k t)

/-- Draw range of the word-based generators:
`Math.random() * (words.length - 1)`. -/
def wordDrawCount (t : List Char) : Nat :=
  (findWordBoundaries t).length - 1

/-- Draw range `Math.random() * (text.length - 1)`. -/
def lastIndexDrawCount (t : List Char) : Nat :=
  t.length - 1

/-- Draw range `Math.random() * (text.length - minPos)` where
`minPos = Math.min(5, Math.floor(text.length / 4))`; also the `maxPos` of the
"to line end" generators. -/
def lineOffsetDrawCount (t : List Char) : Nat :=
  t.length - min 5 (t.length / 4)

/-- Draw range `Math.random() * text.length` (SELECT_ALL). -/
def fullLengthDrawCount (t : List Char) : Nat :=
  t.length

/-- `generateDeleteWordChallenge` body: pick a non-first word, put the cursor
at its end; expected text removes `[wordStart, cursor)`. -/
def generateDeleteWordCore (t : List Char) (i : Nat) : Option Challenge :=
  let words := findWordBoundaries t
  if words.length < 2 then none
  else
    let wordIndex := i + 1
    let targetWord := words.getD wordIndex default
    let cursorPosition := targetWord.stop
    let wordStart := findWordBoundaryLeft t cursorPosition
    let expectedText := t.take wordStart ++ t.drop cursorPosition
    some ⟨t, cursorPosition, ⟨expectedText, wordStart, none⟩⟩

def generateDeleteWordChallenge : List Char → Nat → Option Challenge :=
  genOfDraw wordDrawCount generateDeleteWordCore

/-- `generateDeleteWordForwardChallenge` body: pick a non-last word, cursor
at its start; expected text removes `[cursor, wordEnd)`. -/
def generateDeleteWordForwardCore (t : List Char) (i : Nat) : Option Challenge :=
  let words := findWordBoundaries t
  if words.length < 2 then none
  else
    let wordIndex := i
    let targetWord := words.getD wordIndex default
    let cursorPosition := targetWord.start
    let wordEnd := findWordBoundaryRight t cursorPosition
    let expectedText := t.take cursorPosition ++ t.drop wordEnd
    some ⟨t, cursorPosition, ⟨expectedText, cursorPosition, none⟩⟩

def generateDeleteWordForwardChallenge : List Char → Nat → Option Challenge :=
  genOfDraw wordDrawCount generateDeleteWordForwardCore

/-- `generateMoveWordLeftChallenge` body. -/
def generateMoveWordLeftCore (t : List Char) (i : Nat) : Option Challenge :=
  let words := findWordBoundaries t
  if words.length < 2 then none
  else
    let wordIndex := i + 1
    let cursorPosition := (words.getD wordIndex default).stop
    let expectedPosition := findWordBoundaryLeft t cursorPosition
    some ⟨t, cursorPosition, ⟨t, expectedPosition, none⟩⟩

def generateMoveWordLeftChallenge : List Char → Nat → Option Challenge :=
  genOfDraw wordDrawCount generateMoveWordLeftCore

/-- `generateMoveWordRightChallenge` body. -/
def generateMoveWordRightCore (t : List Char) (i : Nat) : Option Challenge :=
  let words := findWordBoundaries t
  if words.length < 2 then none
  else
    let wordIndex := i
    let cursorPosition := (words.getD wordIndex default).start
    let expectedPosition := findWordBoundaryRight t cursorPosition
    some ⟨t, cursorPosition, ⟨t, expectedPosition, none⟩⟩

def generateMoveWordRightChallenge : List Char → Nat → Option Challenge :=
  genOfDraw wordDrawCount generateMoveWordRightCore

/-- `generateJumpLineStartChallenge` body:
cursor `= Math.floor(Math.random() * (text.length - 1)) + 1`, expected
cursor 0.  Never returns `null`. -/
def generateJumpLineStartCore (t : List Char) (i : Nat) : Option Challenge :=
  let cursorPosition := i + 1
  some ⟨t, cursorPosition, ⟨t, 0, none⟩⟩

def generateJumpLineStartChallenge : List Char → Nat → Option Challenge :=
  genOfDraw lastIndexDrawCount generateJumpLineStartCore

/-- `generateJumpLineEndChallenge` body. -/
def generateJumpLineEndCore (t : List Char) (i : Nat) : Option Challenge :=
  let cursorPosition := i
  some ⟨t, cursorPosition, ⟨t, t.length, none⟩⟩

def generateJumpLineEndChallenge : List Char → Nat → Option Challenge :=
  genOfDraw lastIndexDrawCount generateJumpLineEndCore

/-- `generateDeleteToLineStartChallenge` body:
`minPos = Math.min(5, Math.floor(text.length / 4))`,
cursor `= draw + minPos`, expected text `text.slice(cursorPosition)`. -/
def generateDeleteToLineStartCore (t : List Char) (i : Nat) : Option Challenge :=
  let minPos := min 5 (t.length / 4)
  let cursorPosition := i + minPos
  some ⟨t, cursorPosition, ⟨t.drop cursorPosition, 0, none⟩⟩

def generateDeleteToLineStartChallenge : List Char → Nat → Option Challenge :=
  genOfDraw lineOffsetDrawCount generateDeleteToLineStartCore

/-- `generateDeleteToLineEndChallenge` body: cursor drawn below
`maxPos = text.length - Math.min(5, Math.floor(text.length / 4))`, expected
text `text.slice(0, cursorPosition)`, cursor unchanged. -/
def generateDeleteToLineEndCore (t : List Char) (i : Nat) : Option Challenge :=
  let cursorPosition := i
  some ⟨t, cursorPosition, ⟨t.take cursorPosition, cursorPosition, none⟩⟩

def generateDeleteToLineEndChallenge : List Char → Nat → Option Challenge :=
  genOfDraw lineOffsetDrawCount generateDeleteToLineEndCore

/-- `generateControlDeleteToStartChallenge` body — same placement and
expectation as `generateDeleteToLineStartChallenge`. -/
def generateControlDeleteToStartCore (t : List Char) (i : Nat) : Option Challenge :=
  let minPos := min 5 (t.length / 4)
  let cursorPosition := i + minPos
  some ⟨t, cursorPosition, ⟨t.drop cursorPosition, 0, none⟩⟩

def generateControlDeleteToStartChallenge : List Char → Nat → Option Challenge :=
  genOfDraw lineOffsetDrawCount generateControlDeleteToStartCore

/-- `generateSelectWordLeftChallenge` body. -/
def generateSelectWordLeftCore (t : List Char) (i : Nat) : Option Challenge :=
  let words := findWordBoundaries t
  if words.length < 2 then none
  else
    let wordIndex := i + 1
    let cursorPosition := (words.getD wordIndex default).stop
    let selectionStart := findWordBoundaryLeft t cursorPosition
    some ⟨t, cursorPosition,
      ⟨t, selectionStart, some (selectionStart, cursorPosition)⟩⟩

def generateSelectWordLeftChallenge : List Char → Nat → Option Challenge :=
  genOfDraw wordDrawCount generateSelectWordLeftCore

/-- `generateSelectWordRightChallenge` body. -/
def generateSelectWordRightCore (t : List Char) (i : Nat) : Option Challenge :=
  let words := findWordBoundaries t
  if words.length < 2 then none
  else
    let wordIndex := i
    let cursorPosition := (words.getD wordIndex default).start
    let selectionEnd := findWordBoundaryRight t cursorPosition
    some ⟨t, cursorPosition,
      ⟨t, selectionEnd, some (cursorPosition, selectionEnd)⟩⟩

def generateSelectWordRightChallenge : List Char → Nat → Option Challenge :=
  genOfDraw wordDrawCount generateSelectWordRightCore

/-- `generateSelectToLineStartChallenge` body. -/
def generateSelectToLineStartCore (t : List Char) (i : Nat) : Option Challenge :=
  let minPos := min 5 (t.length / 4)
  let cursorPosition := i + minPos
  some ⟨t, cursorPosition, ⟨t, 0, some (0, cursorPosition)⟩⟩

def generateSelectToLineStartChallenge : List Char → Nat → Option Challenge :=
  genOfDraw lineOffsetDrawCount generateSelectToLineStartCore

/-- `generateSelectToLineEndChallenge` body. -/
def generateSelectToLineEndCore (t : List Char) (i : Nat) : Option Challenge :=
  let cursorPosition := i
  some ⟨t, cursorPosition, ⟨t, t.length, some (cursorPosition, t.length)⟩⟩

def generateSelectToLineEndChallenge : List Char → Nat → Option Challenge :=
  genOfDraw lineOffsetDrawCount generateSelectToLineEndCore

/-- `generateSelectAllChallenge` body. -/
def generateSelectAllCore (t : List Char) (i : Nat) : Option Challenge :=
  let cursorPosition := i
  some ⟨t, cursorPosition, ⟨t, t.length, some (0, t.length)⟩⟩

def generateSelectAllChallenge : List Char → Nat → Option Challenge :=
  genOfDraw fullLengthDrawCount generateSelectAllCore

/-- `generateSelectCharLeftChallenge` body. -/
def generateSelectCharLeftCore (t : List Char) (i : Nat) : Option Challenge :=
  let cursorPosition := i + 1
  some ⟨t, cursorPosition,
    ⟨t, cursorPosition - 1, some (cursorPosition - 1, cursorPosition)⟩⟩

def generateSelectCharLeftChallenge : List Char → Nat → Option Challenge :=
  genOfDraw lastIndexDrawCount generateSelectCharLeftCore

/-- `generateSelectCharRightChallenge` body. -/
def generateSelectCharRightCore (t : List Char) (i : Nat) : Option Challenge :=
  let cursorPosition := i
  some ⟨t, cursorPosition,
    ⟨t, cursorPosition + 1, some (cursorPosition, cursorPosition + 1)⟩⟩

def generateSelectCharRightChallenge : List Char → Nat → Option Challenge :=
  genOfDraw lastIndexDrawCount generateSelectCharRightCore

/-- `generateControlLineStartChallenge` body. -/
def generateControlLineStartCore (t : List Char) (i : Nat) : Option Challenge :=
  let cursorPosition := i + 1
  some ⟨t, cursorPosition, ⟨t, 0, none⟩⟩

def generateControlLineStartChallenge : List Char → Nat → Option Challenge :=
  genOfDraw lastIndexDrawCount generateControlLineStartCore

/-- `generateControlLineEndChallenge` body. -/
def generateControlLineEndCore (t : List Char) (i : Nat) : Option Challenge :=
  let cursorPosition := i
  some ⟨t, cursorPosition, ⟨t, t.length, none⟩⟩

def generateControlLineEndChallenge : List Char → Nat → Option Challenge :=
  genOfDraw lastIndexDrawCount generateControlLineEndCore

/-- `generateControlForwardChallenge` body. -/
def generateControlForwardCore (t : List Char) (i : Nat) : Option Challenge :=
  let cursorPosition := i
  some ⟨t, cursorPosition, ⟨t, cursorPosition + 1, none⟩⟩

def generateControlForwardChallenge : List Char → Nat → Option Challenge :=
  genOfDraw lastIndexDrawCount generateControlForwardCore

/-- `generateControlBackwardChallenge` body. -/
def generateControlBackwardCore (t : List Char) (i : Nat) : Option Challenge :=
  let cursorPosition := i + 1
  some ⟨t, cursorPosition, ⟨t, cursorPosition - 1, none⟩⟩

def generateControlBackwardChallenge : List Char → Nat → Option Challenge :=
  genOfDraw lastIndexDrawCount generateControlBackwardCore

/-- The `CHALLENGE_GENERATORS` map (JS object property lookup). -/
def CHALLENGE_GENERATORS (commandType : String) :
    Option (List Char → Nat → Option Challenge) :=
  if commandType = "DELETE_WORD" then some generateDeleteWordChallenge
  else if commandType = "DELETE_WORD_FORWARD" then some generateDeleteWordForwardChallenge
  else if commandType = "MOVE_WORD_LEFT" then some generateMoveWordLeftChallenge
  else if commandType = "MOVE_WORD_RIGHT" then some generateMoveWordRightChallenge
  else if commandType = "JUMP_LINE_START" then some generateJumpLineStartChallenge
  else if commandType = "JUMP_LINE_END" then some generateJumpLineEndChallenge
  else if commandType = "DELETE_TO_LINE_START" then some generateDeleteToLineStartChallenge
  else if commandType = "DELETE_TO_LINE_END" then some generateDeleteToLineEndChallenge
  else if commandType = "CONTROL_DELETE_TO_START" then some generateControlDeleteToStartChallenge
  else if commandType = "SELECT_WORD_LEFT" then some generateSelectWordLeftChallenge
  else if commandType = "SELECT_WORD_RIGHT" then some generateSelectWordRightChallenge
  else if commandType = "SELECT_TO_LINE_START" then some generateSelectToLineStartChallenge
  else if commandType = "SELECT_TO_LINE_END" then some generateSelectToLineEndChallenge
  else if commandType = "SELECT_ALL" then some generateSelectAllChallenge
  else if commandType = "SELECT_CHAR_LEFT" then some generateSelectCharLeftChallenge
  else if commandType = "SELECT_CHAR_RIGHT" then some generateSelectCharRightChallenge
  else if commandType = "CONTROL_LINE_START" then some generateControlLineStartChallenge
  else if commandType = "CONTROL_LINE_END" then some generateControlLineEndChallenge
  else if commandType = "CONTROL_FORWARD" then some generateControlForwardChallenge
  else if commandType = "CONTROL_BACKWARD" then some generateControlBackwardChallenge
  else none

/-- `Object.keys(CHALLENGE_GENERATORS)` in insertion order. -/
def CHALLENGE_GENERATOR_KEYS : List String :=
  [ "DELETE_WORD", "DELETE_WORD_FORWARD", "MOVE_WORD_LEFT", "MOVE_WORD_RIGHT"
  , "JUMP_LINE_START", "JUMP_LINE_END", "DELETE_TO_LINE_START"
  , "DELETE_TO_LINE_END", "CONTROL_DELETE_TO_START", "SELECT_WORD_LEFT"
  , "SELECT_WORD_RIGHT", "SELECT_TO_LINE_START", "SELECT_TO_LINE_END"
  , "SELECT_ALL", "SELECT_CHAR_LEFT", "SELECT_CHAR_RIGHT"
  , "CONTROL_LINE_START", "CONTROL_LINE_END", "CONTROL_FORWARD"
  , "CONTROL_BACKWARD" ]

def NAVIGATION_COMMANDS : List String :=
  [ "MOVE_WORD_LEFT", "MOVE_WORD_RIGHT", "JUMP_LINE_START", "JUMP_LINE_END"
  , "CONTROL_LINE_START", "CONTROL_LINE_END", "CONTROL_FORWARD"
  , "CONTROL_BACKWARD" ]

def SELECTION_COMMANDS : List String :=
  [ "SELECT_WORD_LEFT", "SELECT_WORD_RIGHT", "SELECT_TO_LINE_START"
  , "SELECT_TO_LINE_END", "SELECT_ALL", "SELECT_CHAR_LEFT"
  , "SELECT_CHAR_RIGHT" ]

def DELETION_COMMANDS : List String :=
  [ "DELETE_WORD", "DELETE_WORD_FORWARD", "DELETE_TO_LINE_START"
  , "DELETE_TO_LINE_END", "CONTROL_DELETE_TO_START" ]

def ALL_COMMANDS : List String :=
  NAVIGATION_COMMANDS ++ SELECTION_COMMANDS ++ DELETION_COMMANDS

/-- `getCategoryCommandTypes(categoryId)`: the three named categories map to
their lists; `'all'` (whose `commandTypes` is `null`) and unknown category
ids both yield `Object.keys(CHALLENGE_GENERATORS)`. -/
def getCategoryCommandTypes (categoryId : String) : List String :=
  if categoryId = "navigation" then NAVIGATION_COMMANDS
  else if categoryId = "selection" then SELECTION_COMMANDS
  else if categoryId = "deletion" then DELETION_COMMANDS
  else CHALLENGE_GENERATOR_KEYS

/-- The `categoryOrEnabledCategories` parameter of `generateChallenge`:
`null`, an enabled-categories object (absent fields mean `?? true`), or a
legacy category-id string. -/
inductive CategoryArg
  | null
  | enabledCategories (navigation selection deletion : Option Bool)
  | categoryId (id : String)
deriving DecidableEq, Repr

/-- The command pool used when no (truthy) `commandType` is given: the
`categoryOrEnabledCategories` dispatch of `generateChallenge`. -/
def availableCommandsFor (categoryArg : CategoryArg) : List String :=
  match categoryArg with
  | .null => CHALLENGE_GENERATOR_KEYS
  | .enabledCategories nav sel del =>
    let navigation := nav.getD true
    let selection := sel.getD true
    let deletion := del.getD true
    let cmds :=
      (if navigation then NAVIGATION_COMMANDS else []) ++
      (if selection then SELECTION_COMMANDS else []) ++
      (if deletion then DELETION_COMMANDS else [])
    if cmds.length = 0 then ALL_COMMANDS else cmds
  | .categoryId cid => getCategoryCommandTypes cid

/-- `generateChallenge(commandType, customText, categoryOrEnabledCategories,
os)`.  The `Math.random()` draws are passed explicitly: `rText` picks the
sample text, `rCmd` picks the command when none is given, `rPick` is the
chosen generator's draw, and `rText2`/`rPick2` feed the single retry the
source performs when the first generation returns `null`.  A thrown
`Error` is modelled as `Except.error` carrying the message.  JS falsiness is
respected: an empty-string `commandType` or `customText` behaves like an
absent one (`commandType || …`, `customText || …`).  The `os` argument is
display metadata only (it feeds the dropped `command` field). -/
def generateChallenge (commandType : Option String) (customText : Option (List Char))
    (categoryArg : CategoryArg) (_os : OS) (rText rCmd rPick rText2 rPick2 : Nat) :
    Except String (Option Challenge) :=
  let text := match customText with
    | some ct => if ct.isEmpty then (getRandomItem TEXT_POOL rText).data else ct
    | none => (getRandomItem TEXT_POOL rText).data
  let availableCommands : List String :=
    match commandType with
    | some ct =>
      if ct.isEmpty then availableCommandsFor categoryArg else [ct]
    | none => availableCommandsFor categoryArg
  let selectedCommand := match commandType with
    | some ct =>
      if ct.isEmpty then getRandomItem availableCommands rCmd else ct
    | none => getRandomItem availableCommands rCmd
  match CHALLENGE_GENERATORS selectedCommand with
  | none => Except.error ("Unknown command type: " ++ selectedCommand)
  | some generator =>
    match generator text rPick with
    | none => Except.ok (generator (getRandomItem TEXT_POOL rText2).data rPick2)
    | some challenge => Except.ok (some challenge)

/-- The user's result passed to `validateChallenge`. -/
structure UserResult where
  text : List Char
  cursorPosition : Nat
  selection : Option (Nat × Nat)
deriving DecidableEq, Repr

/-- `validateChallenge`'s return value; the `details` array (display
diagnostics) is not modelled. -/
structure ValidationResult where
  success : Bool
  textMatch : Bool
  cursorMatch : Bool
  selectionMatch : Bool
deriving DecidableEq, Repr

/-- `validateChallenge(challenge, userResult)`.  Selection is only compared
when `expectedResult.selection` is truthy; a missing user selection is then
replaced by the collapsed pair `[cursorPosition, cursorPosition]`. -/
def validateChallenge (challenge : Challenge) (userResult : UserResult) :
    ValidationResult :=
  let expectedResult := challenge.expectedResult
  let textMatch := decide (userResult.text = expectedResult.text)
  let cursorMatch := decide (userResult.cursorPosition = expectedResult.cursorPosition)
  let selectionMatch :=
    match expectedResult.selection with
    | none => true
    | some (expectedStart, expectedEnd) =>
      let userSelection :=
        userResult.selection.getD (userResult.cursorPosition, userResult.cursorPosition)
      decide (userSelection.1 = expectedStart) && decide (userSelection.2 = expectedEnd)
  ⟨textMatch && cursorMatch && selectionMatch, textMatch, cursorMatch, selectionMatch⟩

/-! ## Key dispatcher (`TerminalEditor._handleKeyDown`) -/

/-- A raw key event: `{ key, metaKey, altKey, ctrlKey, shiftKey }`. -/
structure KeyEvent where
  key : Key
  metaKey : Bool
  altKey : Bool
  ctrlKey : Bool
  shiftKey : Bool
deriving DecidableEq, Repr

namespace TerminalEditor

/-- `_handleKeyDown(e)` — the full dispatch chain, in source order, returning
the `handled` flag and the state after the invoked operation (rendering and
`preventDefault` are display-side effects and are not modelled).  The source
has two dead branches that are transcribed anyway: `isLinux && altKey &&
key === 'd'` is shadowed by the earlier plain-character insertion branch,
and `isLinux && altKey && key === 'Backspace'` is shadowed by the
`key === 'Backspace'` branch. -/
def handleKeyDown (os : OS) (e : KeyEvent) (s : EditorState) : Bool × EditorState :=
  let key := e.key
  let metaKey := e.metaKey
  let altKey := e.altKey
  let ctrlKey := e.ctrlKey
  let shiftKey := e.shiftKey
  let isMac := decide (os = OS.mac)
  let isWindows := decide (os = OS.windows)
  let isLinux := decide (os = OS.linux)
  if key = Key.arrowLeft then
    if isMac && metaKey && shiftKey then (true, selectToLineStart s)
    else if isMac && metaKey then (true, moveToLineStart s)
    else if isMac && altKey && shiftKey then (true, selectByWord s .left)
    else if isMac && altKey then (true, moveByWord s .left)
    else if (isWindows || isLinux) && ctrlKey && shiftKey then (true, selectByWord s .left)
    else if (isWindows || isLinux) && ctrlKey then (true, moveByWord s .left)
    else if shiftKey then (true, extendSelection s .left)
    else (true, moveCursorLeft s)
  else if key = Key.arrowRight then
    if isMac && metaKey && shiftKey then (true, selectToLineEnd s)
    else if isMac && metaKey then (true, moveToLineEnd s)
    else if isMac && altKey && shiftKey then (true, selectByWord s .right)
    else if isMac && altKey then (true, moveByWord s .right)
    else if (isWindows || isLinux) && ctrlKey && shiftKey then (true, selectByWord s .right)
    else if (isWindows || isLinux) && ctrlKey then (true, moveByWord s .right)
    else if shiftKey then (true, extendSelection s .right)
    else (true, moveCursorRight s)
  else if key = Key.backspace then
    if isMac && metaKey then (true, deleteToLineStart s)
    else if (isWindows || isLinux) && ctrlKey && shiftKey then (true, deleteToLineStart s)
    else if isMac && altKey then (true, deleteWord s)
    else if (isWindows || isLinux) && ctrlKey then (true, deleteWord s)
    else (true, deleteCharacter s .backward)
  else if key = Key.delKey then
    if (isWindows || isLinux) && ctrlKey && shiftKey then (true, deleteToLineEnd s)
    else if isMac && altKey then (true, deleteWordForward s)
    else if (isWindows || isLinux) && ctrlKey then (true, deleteWordForward s)
    else (true, deleteCharacter s .forward)
  else if key = Key.home then
    (true, if shiftKey then selectToLineStart s else moveToLineStart s)
  else if key = Key.endKey then
    (true, if shiftKey then selectToLineEnd s else moveToLineEnd s)
  else if keyLen1 key && !metaKey && !ctrlKey then
    (true, insertCharacter s (charOfKey key))
  else if key = Key.enter then
    (true, insertCharacter s '\n')
  else if ctrlKey && keyLowerEq key 'a' then
    if isMac || isLinux then (true, moveToLineStart s)
    else if isWindows then (true, selectAll s)
    else (false, s)
  else if ctrlKey && keyLowerEq key 'e' then
    if isMac || isLinux then (true, moveToLineEnd s) else (false, s)
  else if ctrlKey && keyLowerEq key 'w' then
    (true, deleteWord s)
  else if ctrlKey && keyLowerEq key 'd' then
    if isMac || isLinux then (true, deleteCharacter s .forward) else (false, s)
  else if ctrlKey && keyLowerEq key 'f' then
    if isMac || isLinux then (true, moveCursorRight s) else (false, s)
  else if ctrlKey && keyLowerEq key 'b' then
    if isMac || isLinux then (true, moveCursorLeft s) else (false, s)
  else if ctrlKey && keyLowerEq key 'k' then
    (true, deleteToLineEnd s)
  else if ctrlKey && keyLowerEq key 'u' then
    (true, deleteToLineStart s)
  else if isMac && metaKey && keyLowerEq key 'a' then
    (true, selectAll s)
  else if isLinux && altKey && keyLowerEq key 'd' then
    (true, deleteWordForward s)
  else if isLinux && altKey && key = Key.backspace then
    (true, deleteWord s)
  else (false, s)

end TerminalEditor

/-! ## Replay harness for the generator/operation consistency law -/

/-- The Edit State operation each command identifier invokes: the fixed 1:1
mapping declared by the command table's key chords and realized by the
dispatcher (e.g. `DELETE_WORD`'s chords all reach `deleteWord`,
`JUMP_LINE_START`'s chords reach `moveToLineStart`, `SELECT_CHAR_LEFT` is
Shift+Left which reaches `_extendSelection('left')`, `CONTROL_FORWARD` is
Ctrl+F / plain Right which reach `_moveCursorRight`). -/
def commandOperation (cmd : String) : EditorState → EditorState :=
  if cmd = "DELETE_WORD" then TerminalEditor.deleteWord
  else if cmd = "DELETE_WORD_FORWARD" then TerminalEditor.deleteWordForward
  else if cmd = "MOVE_WORD_LEFT" then fun s => TerminalEditor.moveByWord s .left
  else if cmd = "MOVE_WORD_RIGHT" then fun s => TerminalEditor.moveByWord s .right
  else if cmd = "JUMP_LINE_START" then TerminalEditor.moveToLineStart
  else if cmd = "JUMP_LINE_END" then TerminalEditor.moveToLineEnd
  else if cmd = "DELETE_TO_LINE_START" then TerminalEditor.deleteToLineStart
  else if cmd = "DELETE_TO_LINE_END" then TerminalEditor.deleteToLineEnd
  else if cmd = "CONTROL_DELETE_TO_START" then TerminalEditor.deleteToLineStart
  else if cmd = "SELECT_WORD_LEFT" then fun s => TerminalEditor.selectByWord s .left
  else if cmd = "SELECT_WORD_RIGHT" then fun s => TerminalEditor.selectByWord s .right
  else if cmd = "SELECT_TO_LINE_START" then TerminalEditor.selectToLineStart
  else if cmd = "SELECT_TO_LINE_END" then TerminalEditor.selectToLineEnd
  else if cmd = "SELECT_ALL" then TerminalEditor.selectAll
  else if cmd = "SELECT_CHAR_LEFT" then fun s => TerminalEditor.extendSelection s .left
  else if cmd = "SELECT_CHAR_RIGHT" then fun s => TerminalEditor.extendSelection s .right
  else if cmd = "CONTROL_LINE_START" then TerminalEditor.moveToLineStart
  else if cmd = "CONTROL_LINE_END" then TerminalEditor.moveToLineEnd
  else if cmd = "CONTROL_FORWARD" then TerminalEditor.moveCursorRight
  else if cmd = "CONTROL_BACKWARD" then TerminalEditor.moveCursorLeft
  else id

/-- Replaying a challenge: start from `{text, cursorPosition}` with no
selection, run the command's operation, and compare with `expectedResult` —
text and cursor always, the selection only when the expected result carries
one (compared through `getState`, which is what validation sees). -/
def replayAgrees (cmd : String) (ch : Challenge) : Bool :=
  let startState : EditorState := ⟨ch.text, ch.cursorPosition, none⟩
  let result := commandOperation cmd startState
  decide (result.text = ch.expectedResult.text) &&
  decide (result.cursorPosition = ch.expectedResult.cursorPosition) &&
  (match ch.expectedResult.selection with
   | none => true
   | some (a, b) =>
     decide ((TerminalEditor.getState result).selection = some (a, b)))

/-- Running the generator registered for a command id (none for unknown
ids). -/
def runGenerator (cmd : String) (t : List Char) (r : Nat) : Option Challenge :=
  match CHALLENGE_GENERATORS cmd with
  | some g => g t r
  | none => none

/-- Bounded check that a generator built from draw range `k` and body `core`
replays correctly on every pool text and every possible draw. -/
def cmdCheck (cmd : String) (k : List Char → Nat)
    (core : List Char → Nat → Option Challenge) : Bool :=
  TEXT_POOL.all fun t =>
    (List.range (k t.data)).all fun i =>
      match core t.data i with
      | some ch => replayAgrees cmd ch
      | none => true

/-! ## Generator/operation consistency (C1)

For most commands the generator's expected state and the operation's result
are the *same terms* once both are unfolded (they call the same boundary
functions at the same arguments), so consistency is proved symbolically for
every text; the line-based commands additionally use that the pool texts
contain no newline, and the two select-word commands are checked by
enumerating every pool text and draw. -/

/-- Every pool text is newline-free and at least 4 characters long. -/
theorem pool_facts :
    TEXT_POOL.all
      (fun t => t.data.all (fun c => !(c == '\n')) && decide (4 ≤ t.data.length)) = true := by
  decide

theorem pool_text_noNl (t : String) (ht : t ∈ TEXT_POOL) :
    ∀ c ∈ t.data, c ≠ '\n' := by
  have hf := List.all_eq_true.mp pool_facts t ht
  rw [Bool.and_eq_true] at hf
  intro c hc
  have := List.all_eq_true.mp hf.1 c hc
  simpa using this

theorem pool_text_len (t : String) (ht : t ∈ TEXT_POOL) : 4 ≤ t.data.length := by
  have hf := List.all_eq_true.mp pool_facts t ht
  rw [Bool.and_eq_true] at hf
  simpa using hf.2

/-- On a newline-free text the line start is always 0. -/
theorem findLineStart_noNl (t : List Char) (hnl : ∀ c ∈ t, c ≠ '\n') :
    ∀ p, findLineStart t p = 0 := by
  intro p
  induction p with
  | zero => rfl
  | succ p ih =>
    have hg : notNewlineAt t p = true := by
      unfold notNewlineAt
      cases hq : t.get? p with
      | none => rfl
      | some c => simp [hnl c (List.get?_mem hq)]
    simp [findLineStart, hg, ih]

theorem findLineEndAux_noNl (t : List Char) (hnl : ∀ c ∈ t, c ≠ '\n') :
    ∀ fuel p, p ≤ t.length → t.length ≤ fuel + p → findLineEndAux t fuel p = t.length := by
  intro fuel
  induction fuel with
  | zero =>
    intro p h1 h2
    have : p = t.length := by omega
    simp [findLineEndAux, this]
  | succ fuel ih =>
    intro p h1 h2
    by_cases hp : p < t.length
    · have hg : inLineAt t p = true := by
        unfold inLineAt
        cases hq : t.get? p with
        | none =>
          exfalso
          rw [List.get?_eq_none] at hq
          omega
        | some c => simp [hnl c (List.get?_mem hq)]
      rw [findLineEndAux, if_pos hg]
      exact ih (p + 1) (by omega) (by omega)
    · have hpe : p = t.length := by omega
      subst hpe
      have hq : t.get? t.length = none := by rw [List.get?_eq_none]
      have hg : inLineAt t t.length = false := by
        unfold inLineAt
        rw [hq]
      simp [findLineEndAux, hg]

/-- On a newline-free text the line end is the text length (for any
in-range start position). -/
theorem findLineEnd_noNl (t : List Char) (hnl : ∀ c ∈ t, c ≠ '\n') (p : Nat)
    (hp : p ≤ t.length) : findLineEnd t p = t.length :=
  findLineEndAux_noNl t hnl t.length p hp (by omega)

/-- Lift a per-draw consistency fact through the random draw, for a
generator whose draw range is non-empty on the given text. -/
theorem consistency_route_pos (cmd : String) (k : List Char → Nat)
    (core : List Char → Nat → Option Challenge) (u : List Char)
    (hk : 0 < k u)
    (hall : ∀ i, i < k u → ∀ ch, core u i = some ch → replayAgrees cmd ch = true)
    (r : Nat) (ch : Challenge) (h : genOfDraw k core u r = some ch) :
    replayAgrees cmd ch = true :=
  hall _ (Nat.mod_lt r hk) ch h

/-- Lift a per-draw consistency fact through the random draw, for a
generator that returns `null` whenever its draw range is empty. -/
theorem consistency_route_null (cmd : String) (k : List Char → Nat)
    (core : List Char → Nat → Option Challenge) (u : List Char)
    (hnull : ∀ i, k u = 0 → core u i = none)
    (hall : ∀ i, i < k u → ∀ ch, core u i = some ch → replayAgrees cmd ch = true)
    (r : Nat) (ch : Challenge) (h : genOfDraw k core u r = some ch) :
    replayAgrees cmd ch = true := by
  by_cases hk : 0 < k u
  · exact hall _ (Nat.mod_lt r hk) ch h
  · have hz : k u = 0 := by omega
    have hnone := hnull (r % k u) hz
    simp only [genOfDraw] at h
    rw [hnone] at h
    cases h

theorem cmdCheck_replay (cmd : String) (k : List Char → Nat)
    (core : List Char → Nat → Option Challenge)
    (hchk : cmdCheck cmd k core = true) (t : String) (ht : t ∈ TEXT_POOL)
    (i : Nat) (hi : i < k t.data) (ch : Challenge)
    (hcore : core t.data i = some ch) : replayAgrees cmd ch = true := by
  have h1 := List.all_eq_true.mp hchk t ht
  have h2 := List.all_eq_true.mp h1 i (List.mem_range.mpr hi)
  simp only at h2
  rw [hcore] at h2
  exact h2

theorem generateDeleteWordCore_null (u : List Char) (i : Nat)
    (h : wordDrawCount u = 0) : generateDeleteWordCore u i = none := by
  have h2 : (findWordBoundaries u).length < 2 := by
    unfold wordDrawCount at h; omega
  simp [generateDeleteWordCore, h2]

theorem generateDeleteWordForwardCore_null (u : List Char) (i : Nat)
    (h : wordDrawCount u = 0) : generateDeleteWordForwardCore u i = none := by
  have h2 : (findWordBoundaries u).length < 2 := by
    unfold wordDrawCount at h; omega
  simp [generateDeleteWordForwardCore, h2]

theorem generateMoveWordLeftCore_null (u : List Char) (i : Nat)
    (h : wordDrawCount u = 0) : generateMoveWordLeftCore u i = none := by
  have h2 : (findWordBoundaries u).length < 2 := by
    unfold wordDrawCount at h; omega
  simp [generateMoveWordLeftCore, h2]

theorem generateMoveWordRightCore_null (u : List Char) (i : Nat)
    (h : wordDrawCount u = 0) : generateMoveWordRightCore u i = none := by
  have h2 : (findWordBoundaries u).length < 2 := by
    unfold wordDrawCount at h; omega
  simp [generateMoveWordRightCore, h2]

theorem generateSelectWordLeftCore_null (u : List Char) (i : Nat)
    (h : wordDrawCount u = 0) : generateSelectWordLeftCore u i = none := by
  have h2 : (findWordBoundaries u).length < 2 := by
    unfold wordDrawCount at h; omega
  simp [generateSelectWordLeftCore, h2]

theorem generateSelectWordRightCore_null (u : List Char) (i : Nat)
    (h : wordDrawCount u = 0) : generateSelectWordRightCore u i = none := by
  have h2 : (findWordBoundaries u).length < 2 := by
    unfold wordDrawCount at h; omega
  simp [generateSelectWordRightCore, h2]

/-- `DELETE_WORD`: generator and operation compute the very same
`findWordBoundaryLeft` and slices, for every text. -/
theorem consistency_DELETE_WORD (u : List Char) (r : Nat) (ch : Challenge)
    (h : generateDeleteWordChallenge u r = some ch) :
    replayAgrees "DELETE_WORD" ch = true := by
  refine consistency_route_null _ _ _ u
    (fun i hz => generateDeleteWordCore_null u i hz) ?_ r ch h
  intro i hi ch2 hcore
  simp only [generateDeleteWordCore] at hcore
  split at hcore
  · cases hcore
  · rw [Option.some_inj] at hcore
    subst hcore
    simp [replayAgrees, commandOperation, TerminalEditor.deleteWord]

theorem consistency_DELETE_WORD_FORWARD (u : List Char) (r : Nat) (ch : Challenge)
    (h : generateDeleteWordForwardChallenge u r = some ch) :
    replayAgrees "DELETE_WORD_FORWARD" ch = true := by
  refine consistency_route_null _ _ _ u
    (fun i hz => generateDeleteWordForwardCore_null u i hz) ?_ r ch h
  intro i hi ch2 hcore
  simp only [generateDeleteWordForwardCore] at hcore
  split at hcore
  · cases hcore
  · rw [Option.some_inj] at hcore
    subst hcore
    simp [replayAgrees, commandOperation, TerminalEditor.deleteWordForward,
      TerminalEditor.findWordBoundary]

theorem consistency_MOVE_WORD_LEFT (u : List Char) (r : Nat) (ch : Challenge)
    (h : generateMoveWordLeftChallenge u r = some ch) :
    replayAgrees "MOVE_WORD_LEFT" ch = true := by
  refine consistency_route_null _ _ _ u
    (fun i hz => generateMoveWordLeftCore_null u i hz) ?_ r ch h
  intro i hi ch2 hcore
  simp only [generateMoveWordLeftCore] at hcore
  split at hcore
  · cases hcore
  · rw [Option.some_inj] at hcore
    subst hcore
    simp [replayAgrees, commandOperation, TerminalEditor.moveByWord,
      TerminalEditor.findWordBoundary]

theorem consistency_MOVE_WORD_RIGHT (u : List Char) (r : Nat) (ch : Challenge)
    (h : generateMoveWordRightChallenge u r = some ch) :
    replayAgrees "MOVE_WORD_RIGHT" ch = true := by
  refine consistency_route_null _ _ _ u
    (fun i hz => generateMoveWordRightCore_null u i hz) ?_ r ch h
  intro i hi ch2 hcore
  simp only [generateMoveWordRightCore] at hcore
  split at hcore
  · cases hcore
  · rw [Option.some_inj] at hcore
    subst hcore
    simp [replayAgrees, commandOperation, TerminalEditor.moveByWord,
      TerminalEditor.findWordBoundary]

theorem consistency_JUMP_LINE_START (u : List Char) (hnl : ∀ c ∈ u, c ≠ '\n')
    (hlen : 4 ≤ u.length) (r : Nat) (ch : Challenge)
    (h : generateJumpLineStartChallenge u r = some ch) :
    replayAgrees "JUMP_LINE_START" ch = true := by
  refine consistency_route_pos _ lastIndexDrawCount _ u
    (by unfold lastIndexDrawCount; omega) ?_ r ch h
  intro i hi ch2 hcore
  simp only [generateJumpLineStartCore, Option.some_inj] at hcore
  subst hcore
  simp [replayAgrees, commandOperation, TerminalEditor.moveToLineStart,
    findLineStart_noNl u hnl]

theorem consistency_JUMP_LINE_END (u : List Char) (hnl : ∀ c ∈ u, c ≠ '\n')
    (hlen : 4 ≤ u.length) (r : Nat) (ch : Challenge)
    (h : generateJumpLineEndChallenge u r = some ch) :
    replayAgrees "JUMP_LINE_END" ch = true := by
  refine consistency_route_pos _ lastIndexDrawCount _ u
    (by unfold lastIndexDrawCount; omega) ?_ r ch h
  intro i hi ch2 hcore
  unfold lastIndexDrawCount at hi
  simp only [generateJumpLineEndCore, Option.some_inj] at hcore
  subst hcore
  have hile : i ≤ u.length := by omega
  simp [replayAgrees, commandOperation, TerminalEditor.moveToLineEnd,
    findLineEnd_noNl u hnl i hile]

theorem consistency_DELETE_TO_LINE_START (u : List Char) (hnl : ∀ c ∈ u, c ≠ '\n')
    (hlen : 4 ≤ u.length) (r : Nat) (ch : Challenge)
    (h : generateDeleteToLineStartChallenge u r = some ch) :
    replayAgrees "DELETE_TO_LINE_START" ch = true := by
  refine consistency_route_pos _ lineOffsetDrawCount _ u
    (by unfold lineOffsetDrawCount; omega) ?_ r ch h
  intro i hi ch2 hcore
  simp only [generateDeleteToLineStartCore, Option.some_inj] at hcore
  subst hcore
  simp [replayAgrees, commandOperation, TerminalEditor.deleteToLineStart,
    findLineStart_noNl u hnl]

theorem consistency_DELETE_TO_LINE_END (u : List Char) (hnl : ∀ c ∈ u, c ≠ '\n')
    (hlen : 4 ≤ u.length) (r : Nat) (ch : Challenge)
    (h : generateDeleteToLineEndChallenge u r = some ch) :
    replayAgrees "DELETE_TO_LINE_END" ch = true := by
  refine consistency_route_pos _ lineOffsetDrawCount _ u
    (by unfold lineOffsetDrawCount; omega) ?_ r ch h
  intro i hi ch2 hcore
  unfold lineOffsetDrawCount at hi
  simp only [generateDeleteToLineEndCore, Option.some_inj] at hcore
  subst hcore
  have hile : i ≤ u.length := by omega
  simp [replayAgrees, commandOperation, TerminalEditor.deleteToLineEnd,
    findLineEnd_noNl u hnl i hile]

theorem consistency_CONTROL_DELETE_TO_START (u : List Char) (hnl : ∀ c ∈ u, c ≠ '\n')
    (hlen : 4 ≤ u.length) (r : Nat) (ch : Challenge)
    (h : generateControlDeleteToStartChallenge u r = some ch) :
    replayAgrees "CONTROL_DELETE_TO_START" ch = true := by
  refine consistency_route_pos _ lineOffsetDrawCount _ u
    (by unfold lineOffsetDrawCount; omega) ?_ r ch h
  intro i hi ch2 hcore
  simp only [generateControlDeleteToStartCore, Option.some_inj] at hcore
  subst hcore
  simp [replayAgrees, commandOperation, TerminalEditor.deleteToLineStart,
    findLineStart_noNl u hnl]

theorem consistency_SELECT_TO_LINE_START (u : List Char) (hnl : ∀ c ∈ u, c ≠ '\n')
    (hlen : 4 ≤ u.length) (r : Nat) (ch : Challenge)
    (h : generateSelectToLineStartChallenge u r = some ch) :
    replayAgrees "SELECT_TO_LINE_START" ch = true := by
  refine consistency_route_pos _ lineOffsetDrawCount _ u
    (by unfold lineOffsetDrawCount; omega) ?_ r ch h
  intro i hi ch2 hcore
  simp only [generateSelectToLineStartCore, Option.some_inj] at hcore
  subst hcore
  have hne : ¬(i + min 5 (u.length / 4) = 0) := by omega
  simp [replayAgrees, commandOperation, TerminalEditor.selectToLineStart,
    TerminalEditor.updateSelection, TerminalEditor.getState,
    findLineStart_noNl u hnl, hne]

theorem consistency_SELECT_TO_LINE_END (u : List Char) (hnl : ∀ c ∈ u, c ≠ '\n')
    (hlen : 4 ≤ u.length) (r : Nat) (ch : Challenge)
    (h : generateSelectToLineEndChallenge u r = some ch) :
    replayAgrees "SELECT_TO_LINE_END" ch = true := by
  refine consistency_route_pos _ lineOffsetDrawCount _ u
    (by unfold lineOffsetDrawCount; omega) ?_ r ch h
  intro i hi ch2 hcore
  unfold lineOffsetDrawCount at hi
  simp only [generateSelectToLineEndCore, Option.some_inj] at hcore
  subst hcore
  have hile : i ≤ u.length := by omega
  have hine : ¬(i = u.length) := by omega
  simp [replayAgrees, commandOperation, TerminalEditor.selectToLineEnd,
    TerminalEditor.updateSelection, TerminalEditor.getState,
    findLineEnd_noNl u hnl i hile, hine, min_eq_left hile, max_eq_right hile]

theorem consistency_SELECT_ALL (u : List Char) (hlen : 4 ≤ u.length)
    (r : Nat) (ch : Challenge)
    (h : generateSelectAllChallenge u r = some ch) :
    replayAgrees "SELECT_ALL" ch = true := by
  refine consistency_route_pos _ fullLengthDrawCount _ u
    (by unfold fullLengthDrawCount; omega) ?_ r ch h
  intro i hi ch2 hcore
  simp only [generateSelectAllCore, Option.some_inj] at hcore
  subst hcore
  have hne : ¬(u.length = 0) := by omega
  simp [replayAgrees, commandOperation, TerminalEditor.selectAll,
    TerminalEditor.getState, hne]

theorem consistency_SELECT_CHAR_LEFT (u : List Char) (hlen : 4 ≤ u.length)
    (r : Nat) (ch : Challenge)
    (h : generateSelectCharLeftChallenge u r = some ch) :
    replayAgrees "SELECT_CHAR_LEFT" ch = true := by
  refine consistency_route_pos _ lastIndexDrawCount _ u
    (by unfold lastIndexDrawCount; omega) ?_ r ch h
  intro i hi ch2 hcore
  simp only [generateSelectCharLeftCore, Option.some_inj] at hcore
  subst hcore
  have hne : ¬(i + 1 = i) := by omega
  simp [replayAgrees, commandOperation, TerminalEditor.extendSelection,
    TerminalEditor.updateSelection, TerminalEditor.getState, hne,
    min_eq_right (Nat.le_succ i), max_eq_left (Nat.le_succ i)]

theorem consistency_SELECT_CHAR_RIGHT (u : List Char) (hlen : 4 ≤ u.length)
    (r : Nat) (ch : Challenge)
    (h : generateSelectCharRightChallenge u r = some ch) :
    replayAgrees "SELECT_CHAR_RIGHT" ch = true := by
  refine consistency_route_pos _ lastIndexDrawCount _ u
    (by unfold lastIndexDrawCount; omega) ?_ r ch h
  intro i hi ch2 hcore
  unfold lastIndexDrawCount at hi
  simp only [generateSelectCharRightCore, Option.some_inj] at hcore
  subst hcore
  have hilt : i < u.length := by omega
  have hne : ¬(i = i + 1) := by omega
  simp [replayAgrees, commandOperation, TerminalEditor.extendSelection,
    TerminalEditor.updateSelection, TerminalEditor.getState, hilt, hne,
    min_eq_left (Nat.le_succ i), max_eq_right (Nat.le_succ i)]

theorem consistency_CONTROL_LINE_START (u : List Char) (hnl : ∀ c ∈ u, c ≠ '\n')
    (hlen : 4 ≤ u.length) (r : Nat) (ch : Challenge)
    (h : generateControlLineStartChallenge u r = some ch) :
    replayAgrees "CONTROL_LINE_START" ch = true := by
  refine consistency_route_pos _ lastIndexDrawCount _ u
    (by unfold lastIndexDrawCount; omega) ?_ r ch h
  intro i hi ch2 hcore
  simp only [generateControlLineStartCore, Option.some_inj] at hcore
  subst hcore
  simp [replayAgrees, commandOperation, TerminalEditor.moveToLineStart,
    findLineStart_noNl u hnl]

theorem consistency_CONTROL_LINE_END (u : List Char) (hnl : ∀ c ∈ u, c ≠ '\n')
    (hlen : 4 ≤ u.length) (r : Nat) (ch : Challenge)
    (h : generateControlLineEndChallenge u r = some ch) :
    replayAgrees "CONTROL_LINE_END" ch = true := by
  refine consistency_route_pos _ lastIndexDrawCount _ u
    (by unfold lastIndexDrawCount; omega) ?_ r ch h
  intro i hi ch2 hcore
  unfold lastIndexDrawCount at hi
  simp only [generateControlLineEndCore, Option.some_inj] at hcore
  subst hcore
  have hile : i ≤ u.length := by omega
  simp [replayAgrees, commandOperation, TerminalEditor.moveToLineEnd,
    findLineEnd_noNl u hnl i hile]

theorem consistency_CONTROL_FORWARD (u : List Char) (hlen : 4 ≤ u.length)
    (r : Nat) (ch : Challenge)
    (h : generateControlForwardChallenge u r = some ch) :
    replayAgrees "CONTROL_FORWARD" ch = true := by
  refine consistency_route_pos _ lastIndexDrawCount _ u
    (by unfold lastIndexDrawCount; omega) ?_ r ch h
  intro i hi ch2 hcore
  unfold lastIndexDrawCount at hi
  simp only [generateControlForwardCore, Option.some_inj] at hcore
  subst hcore
  have hilt : i < u.length := by omega
  simp [replayAgrees, commandOperation, TerminalEditor.moveCursorRight, hilt]

theorem consistency_CONTROL_BACKWARD (u : List Char) (hlen : 4 ≤ u.length)
    (r : Nat) (ch : Challenge)
    (h : generateControlBackwardChallenge u r = some ch) :
    replayAgrees "CONTROL_BACKWARD" ch = true := by
  refine consistency_route_pos _ lastIndexDrawCount _ u
    (by unfold lastIndexDrawCount; omega) ?_ r ch h
  intro i hi ch2 hcore
  simp only [generateControlBackwardCore, Option.some_inj] at hcore
  subst hcore
  simp [replayAgrees, commandOperation, TerminalEditor.moveCursorLeft]

theorem selectWordLeft_check :
    cmdCheck "SELECT_WORD_LEFT" wordDrawCount generateSelectWordLeftCore = true := by
  decide

theorem selectWordRight_check :
    cmdCheck "SELECT_WORD_RIGHT" wordDrawCount generateSelectWordRightCore = true := by
  decide

theorem consistency_SELECT_WORD_LEFT (t : String) (ht : t ∈ TEXT_POOL)
    (r : Nat) (ch : Challenge)
    (h : generateSelectWordLeftChallenge t.data r = some ch) :
    replayAgrees "SELECT_WORD_LEFT" ch = true := by
  refine consistency_route_null _ _ _ t.data
    (fun i hz => generateSelectWordLeftCore_null t.data i hz) ?_ r ch h
  intro i hi ch2 hcore
  exact cmdCheck_replay _ _ _ selectWordLeft_check t ht i hi ch2 hcore

theorem consistency_SELECT_WORD_RIGHT (t : String) (ht : t ∈ TEXT_POOL)
    (r : Nat) (ch : Challenge)
    (h : generateSelectWordRightChallenge t.data r = some ch) :
    replayAgrees "SELECT_WORD_RIGHT" ch = true := by
  refine consistency_route_null _ _ _ t.data
    (fun i hz => generateSelectWordRightCore_null t.data i hz) ?_ r ch h
  intro i hi ch2 hcore
  exact cmdCheck_replay _ _ _ selectWordRight_check t ht i hi ch2 hcore

/-- C1: for every command identifier and every sample text for which the
challenge generator returns a non-null challenge (over every possible random
draw `r`), replaying the Edit State operation that the command maps to (the
`TerminalEditor` method, e.g. `moveToLineStart` for `JUMP_LINE_START`) on
the challenge's start state `{text, cursorPosition}` (no selection) produces
exactly the challenge's `expectedResult`: same text, same cursor position,
and the same selection whenever the expected result carries one. -/
theorem generator_operation_consistency
    (cmd : String) (t : String) (ht : t ∈ TEXT_POOL) (r : Nat) (ch : Challenge)
    (hgen : runGenerator cmd t.data r = some ch) :
    replayAgrees cmd ch = true := by
  have hnl := pool_text_noNl t ht
  have hlen := pool_text_len t ht
  by_cases h1 : cmd = "DELETE_WORD"
  · subst h1; exact consistency_DELETE_WORD t.data r ch hgen
  by_cases h2 : cmd = "DELETE_WORD_FORWARD"
  · subst h2; exact consistency_DELETE_WORD_FORWARD t.data r ch hgen
  by_cases h3 : cmd = "MOVE_WORD_LEFT"
  · subst h3; exact consistency_MOVE_WORD_LEFT t.data r ch hgen
  by_cases h4 : cmd = "MOVE_WORD_RIGHT"
  · subst h4; exact consistency_MOVE_WORD_RIGHT t.data r ch hgen
  by_cases h5 : cmd = "JUMP_LINE_START"
  · subst h5; exact consistency_JUMP_LINE_START t.data hnl hlen r ch hgen
  by_cases h6 : cmd = "JUMP_LINE_END"
  · subst h6; exact consistency_JUMP_LINE_END t.data hnl hlen r ch hgen
  by_cases h7 : cmd = "DELETE_TO_LINE_START"
  · subst h7; exact consistency_DELETE_TO_LINE_START t.data hnl hlen r ch hgen
  by_cases h8 : cmd = "DELETE_TO_LINE_END"
  · subst h8; exact consistency_DELETE_TO_LINE_END t.data hnl hlen r ch hgen
  by_cases h9 : cmd = "CONTROL_DELETE_TO_START"
  · subst h9; exact consistency_CONTROL_DELETE_TO_START t.data hnl hlen r ch hgen
  by_cases h10 : cmd = "SELECT_WORD_LEFT"
  · subst h10; exact consistency_SELECT_WORD_LEFT t ht r ch hgen
  by_cases h11 : cmd = "SELECT_WORD_RIGHT"
  · subst h11; exact consistency_SELECT_WORD_RIGHT t ht r ch hgen
  by_cases h12 : cmd = "SELECT_TO_LINE_START"
  · subst h12; exact consistency_SELECT_TO_LINE_START t.data hnl hlen r ch hgen
  by_cases h13 : cmd = "SELECT_TO_LINE_END"
  · subst h13; exact consistency_SELECT_TO_LINE_END t.data hnl hlen r ch hgen
  by_cases h14 : cmd = "SELECT_ALL"
  · subst h14; exact consistency_SELECT_ALL t.data hlen r ch hgen
  by_cases h15 : cmd = "SELECT_CHAR_LEFT"
  · subst h15; exact consistency_SELECT_CHAR_LEFT t.data hlen r ch hgen
  by_cases h16 : cmd = "SELECT_CHAR_RIGHT"
  · subst h16; exact consistency_SELECT_CHAR_RIGHT t.data hlen r ch hgen
  by_cases h17 : cmd = "CONTROL_LINE_START"
  · subst h17; exact consistency_CONTROL_LINE_START t.data hnl hlen r ch hgen
  by_cases h18 : cmd = "CONTROL_LINE_END"
  · subst h18; exact consistency_CONTROL_LINE_END t.data hnl hlen r ch hgen
  by_cases h19 : cmd = "CONTROL_FORWARD"
  · subst h19; exact consistency_CONTROL_FORWARD t.data hlen r ch hgen
  by_cases h20 : cmd = "CONTROL_BACKWARD"
  · subst h20; exact consistency_CONTROL_BACKWARD t.data hlen r ch hgen
  exfalso
  have hnone : CHALLENGE_GENERATORS cmd = none := by
    simp [CHALLENGE_GENERATORS, h1, h2, h3, h4, h5, h6, h7, h8, h9, h10,
      h11, h12, h13, h14, h15, h16, h17, h18, h19, h20]
  unfold runGenerator at hgen
  rw [hnone] at hgen
  cases hgen

/-- Witness for C1: the `JUMP_LINE_END` generator at pool text
`"let counter = 0"` with draw 0 produces the challenge below, and the
replay agrees. -/
theorem generator_operation_consistency_witness :
    replayAgrees "JUMP_LINE_END"
      ⟨"let counter = 0".data, 0, ⟨"let counter = 0".data, 15, none⟩⟩ = true :=
  generator_operation_consistency "JUMP_LINE_END" "let counter = 0" (by decide) 0
    ⟨"let counter = 0".data, 0, ⟨"let counter = 0".data, 15, none⟩⟩ (by decide)

/-! ## Boundary finder range properties (C7, C8) -/

theorem skipWsLeft_le (t : List Char) : ∀ p, skipWsLeft t p ≤ p := by
  intro p
  induction p with
  | zero => simp [skipWsLeft]
  | succ p ih =>
    simp only [skipWsLeft]
    split
    · exact Nat.le_trans ih (Nat.le_succ p)
    · exact Nat.le_refl _

theorem skipBackToWordStart_le (t : List Char) : ∀ p, skipBackToWordStart t p ≤ p := by
  intro p
  induction p with
  | zero => simp [skipBackToWordStart]
  | succ p ih =>
    simp only [skipBackToWordStart]
    split
    · exact Nat.le_trans ih (Nat.le_succ p)
    · exact Nat.le_refl _

theorem findLineStart_le (t : List Char) : ∀ p, findLineStart t p ≤ p := by
  intro p
  induction p with
  | zero => simp [findLineStart]
  | succ p ih =>
    simp only [findLineStart]
    split
    · exact Nat.le_trans ih (Nat.le_succ p)
    · exact Nat.le_refl _

/-- The word-left boundary never moves right: it is at most the given
position. -/
theorem findWordBoundaryLeft_le (t : List Char) (pos : Nat) :
    findWordBoundaryLeft t pos ≤ pos := by
  unfold findWordBoundaryLeft
  split
  · omega
  · calc skipBackToWordStart t (skipWsLeft t (pos - 1))
        ≤ skipWsLeft t (pos - 1) := skipBackToWordStart_le t _
      _ ≤ pos - 1 := skipWsLeft_le t _
      _ ≤ pos := Nat.sub_le pos 1

theorem inWordAt_lt (t : List Char) (p : Nat) (h : inWordAt t p = true) :
    p < t.length := by
  by_cases hlt : p < t.length
  · exact hlt
  · exfalso
    unfold inWordAt at h
    rw [List.get?_eq_none.mpr (by omega)] at h
    cases h

theorem wsAt_lt (t : List Char) (p : Nat) (h : wsAt t p = true) :
    p < t.length := by
  by_cases hlt : p < t.length
  · exact hlt
  · exfalso
    unfold wsAt at h
    rw [List.get?_eq_none.mpr (by omega)] at h
    cases h

theorem skipWordRight_le_length (t : List Char) :
    ∀ fuel p, p ≤ t.length → skipWordRight t fuel p ≤ t.length := by
  intro fuel
  induction fuel with
  | zero => intro p h; simpa [skipWordRight] using h
  | succ fuel ih =>
    intro p h
    simp only [skipWordRight]
    split
    · rename_i hcond
      exact ih (p + 1) (inWordAt_lt t p hcond)
    · exact h

theorem skipWsRight_le_length (t : List Char) :
    ∀ fuel p, p ≤ t.length → skipWsRight t fuel p ≤ t.length := by
  intro fuel
  induction fuel with
  | zero => intro p h; simpa [skipWsRight] using h
  | succ fuel ih =>
    intro p h
    simp only [skipWsRight]
    split
    · rename_i hcond
      exact ih (p + 1) (wsAt_lt t p hcond)
    · exact h

theorem inLineAt_lt (t : List Char) (p : Nat) (h : inLineAt t p = true) :
    p < t.length := by
  by_cases hlt : p < t.length
  · exact hlt
  · exfalso
    unfold inLineAt at h
    rw [List.get?_eq_none.mpr (by omega)] at h
    cases h

theorem findLineEndAux_le_length (t : List Char) :
    ∀ fuel p, p ≤ t.length → findLineEndAux t fuel p ≤ t.length := by
  intro fuel
  induction fuel with
  | zero => intro p h; simpa [findLineEndAux] using h
  | succ fuel ih =>
    intro p h
    simp only [findLineEndAux]
    split
    · rename_i hcond
      exact ih (p + 1) (inLineAt_lt t p hcond)
    · exact h

/-- C7: each Boundary Finder function, applied at a position in
`[0, length(text)]`, returns a position at most `length(text)` (the lower
bound 0 is immediate since positions are natural numbers: every loop stops
at 0). -/
theorem boundary_results_in_range (t : List Char) (pos : Nat)
    (h : pos ≤ t.length) :
    findWordBoundaryLeft t pos ≤ t.length ∧
    findWordBoundaryRight t pos ≤ t.length ∧
    findLineStart t pos ≤ t.length ∧
    findLineEnd t pos ≤ t.length := by
  refine ⟨Nat.le_trans (findWordBoundaryLeft_le t pos) h, ?_, ?_, ?_⟩
  · unfold findWordBoundaryRight
    split
    · exact Nat.le_refl _
    · rename_i hge
      exact skipWsRight_le_length t t.length _
        (skipWordRight_le_length t t.length pos (by omega))
  · exact Nat.le_trans (findLineStart_le t pos) h
  · exact findLineEndAux_le_length t t.length pos h

/-- Witness for C7: at text `"ab cd"` and position 3 all four boundaries
are in range. -/
theorem boundary_results_in_range_witness :
    findWordBoundaryLeft "ab cd".data 3 ≤ "ab cd".data.length ∧
    findWordBoundaryRight "ab cd".data 3 ≤ "ab cd".data.length ∧
    findLineStart "ab cd".data 3 ≤ "ab cd".data.length ∧
    findLineEnd "ab cd".data 3 ≤ "ab cd".data.length :=
  boundary_results_in_range "ab cd".data 3 (by decide)

/-- C8: the word-left boundary at position 0 is 0, and the word-right
boundary at position `length(text)` is `length(text)`, for every text. -/
theorem boundary_edges (t : List Char) :
    findWordBoundaryLeft t 0 = 0 ∧
    findWordBoundaryRight t t.length = t.length := by
  constructor
  · simp [findWordBoundaryLeft]
  · simp [findWordBoundaryRight]

/-! ## Selection collapse invariant (C4) -/

/-- The selection invariant the select operations must establish: any stored
selection has `start < end`, and its anchor differs from the resulting
cursor position (equivalently: had the anchor met the cursor, the selection
would have been collapsed to `null`). -/
def selProduced (s : EditorState) : Prop :=
  ∀ sel, s.selection = some sel →
    sel.start < sel.stop ∧ sel.anchor ≠ s.cursorPosition

theorem updateSelection_selProduced (s : EditorState) (a : Nat) :
    selProduced (TerminalEditor.updateSelection s a s.cursorPosition) := by
  intro sel hsel
  by_cases hc : a = s.cursorPosition
  · simp [TerminalEditor.updateSelection, hc] at hsel
  · simp [TerminalEditor.updateSelection, hc] at hsel ⊢
    subst hsel
    refine ⟨?_, ?_⟩
    · show min a s.cursorPosition < max a s.cursorPosition
      omega
    · show a ≠ s.cursorPosition
      exact hc

/-- C4: after any select operation (`selectByWord`, `selectToLineStart`,
`selectToLineEnd`, `_extendSelection`, `selectAll`), a non-null resulting
selection has `start < end` and its anchor differs from the resulting
cursor (so an anchor meeting the cursor always yields `null`). -/
theorem select_ops_selection_invariant (s : EditorState) (dir : Dir) :
    selProduced (TerminalEditor.selectByWord s dir) ∧
    selProduced (TerminalEditor.selectToLineStart s) ∧
    selProduced (TerminalEditor.selectToLineEnd s) ∧
    selProduced (TerminalEditor.extendSelection s dir) ∧
    selProduced (TerminalEditor.selectAll s) := by
  refine ⟨?_, ?_, ?_, ?_, ?_⟩
  · unfold TerminalEditor.selectByWord
    exact updateSelection_selProduced _ _
  · unfold TerminalEditor.selectToLineStart
    exact updateSelection_selProduced _ _
  · unfold TerminalEditor.selectToLineEnd
    exact updateSelection_selProduced _ _
  · unfold TerminalEditor.extendSelection
    exact updateSelection_selProduced _ _
  · intro sel hsel
    by_cases hz : s.text.length = 0
    · simp [TerminalEditor.selectAll, hz] at hsel
    · simp [TerminalEditor.selectAll, hz] at hsel ⊢
      subst hsel
      refine ⟨?_, ?_⟩
      · show 0 < s.text.length
        omega
      · show (0 : Nat) ≠ s.text.length
        omega

/-- Witness for C4: `selectToLineStart` from `{text := "ab", cursor := 2}`
stores the selection `{start := 0, stop := 2, anchor := 2}`, which has
`start < stop` and anchor 2 different from the resulting cursor 0. -/
theorem select_ops_selection_invariant_witness :
    (Sel.mk 0 2 2).start < (Sel.mk 0 2 2).stop ∧
    (Sel.mk 0 2 2).anchor ≠
      (TerminalEditor.selectToLineStart ⟨"ab".data, 2, none⟩).cursorPosition :=
  (select_ops_selection_invariant ⟨"ab".data, 2, none⟩ Dir.left).2.1
    (Sel.mk 0 2 2) (by decide)

/-! ## Concrete `deleteWord` scenario (C2) -/

/-- The claimed result text `"let = 0"` is wrong: deleting the word
`"counter"` (cursor 11, word start 4) keeps *both* the space at index 3
(inside `text.slice(0, 4) = "let "`) and the space at index 11 (start of
`text.slice(11) = " = 0"`), so the result has two consecutive spaces. -/
theorem deleteWord_concrete_counterexample :
    (TerminalEditor.deleteWord ⟨"let counter = 0".data, 11, none⟩).text =
      "let  = 0".data ∧
    ¬((TerminalEditor.deleteWord ⟨"let counter = 0".data, 11, none⟩).text =
      "let = 0".data) := by
  decide

/-- C2 (amended): on `"let counter = 0"` with no selection and cursor 11,
`deleteWord` yields text `"let  = 0"` (with two consecutive spaces) and
cursor position 4. -/
theorem deleteWord_concrete_amended :
    TerminalEditor.deleteWord ⟨"let counter = 0".data, 11, none⟩ =
      ⟨"let  = 0".data, 4, none⟩ := by
  decide

/-! ## Totality and clamping of Edit State operations (C3) -/

/-- `setState` does not clamp or normalize a host-supplied selection: on the
2-character text `"ab"` the selection `{start: 5, end: 9}` is stored
verbatim (with the anchor defaulted to `start`), even though both offsets
exceed the text length. -/
theorem setState_preserves_out_of_range_selection :
    (TerminalEditor.setState ⟨"ab".data, 0, none⟩
        ⟨none, none, some (some ⟨5, 9, none⟩)⟩).selection = some ⟨5, 9, 5⟩ ∧
    (TerminalEditor.setState ⟨"ab".data, 0, none⟩
        ⟨none, none, some (some ⟨5, 9, none⟩)⟩).text.length = 2 ∧
    ¬((9 : Nat) ≤ 2) := by
  decide

/-- C3 (amended): all Edit State operations are total (they are modelled as
total Lean functions — nothing throws); `moveCursor` and `setState` clamp
the (possibly negative) host-supplied cursor into `[0, length(text)]` and
`moveCursor` clears the selection, but `setState` stores a host-supplied
selection verbatim — unclamped and unnormalized — with JS `anchor || start`
semantics (an absent or zero anchor falls back to `start`). -/
theorem edit_state_clamping (s : EditorState) (p : Int)
    (ptext : Option (List Char)) (q : Int) (sp : TerminalEditor.SelPatch) :
    (TerminalEditor.moveCursor s p).cursorPosition ≤ s.text.length ∧
    (TerminalEditor.moveCursor s p).selection = none ∧
    (TerminalEditor.setState s ⟨ptext, some q, some (some sp)⟩).cursorPosition ≤
      (TerminalEditor.setState s ⟨ptext, some q, some (some sp)⟩).text.length ∧
    (TerminalEditor.setState s ⟨ptext, some q, some (some sp)⟩).selection =
      some ⟨sp.start, sp.stop,
        match sp.anchor with
        | some a => if a = 0 then sp.start else a
        | none => sp.start⟩ := by
  refine ⟨?_, ?_, ?_, ?_⟩
  · simp only [TerminalEditor.moveCursor]
    omega
  · simp [TerminalEditor.moveCursor]
  · cases ptext <;> simp only [TerminalEditor.setState] <;> omega
  · cases ptext <;> simp [TerminalEditor.setState]

/-! ## Validator asymmetry (C5) -/

/-- C5: when the expected result carries no selection, `validateChallenge`
succeeds exactly when text and cursor match — any selection in the user's
result is ignored. -/
theorem validator_ignores_unexpected_selection (challenge : Challenge)
    (userResult : UserResult)
    (h : challenge.expectedResult.selection = none) :
    (validateChallenge challenge userResult).success =
      (decide (userResult.text = challenge.expectedResult.text) &&
       decide (userResult.cursorPosition = challenge.expectedResult.cursorPosition)) := by
  simp [validateChallenge, h]

/-- Witness for C5: matching text and cursor with a *spurious* user
selection still validates as success when no selection is expected. -/
theorem validator_ignores_unexpected_selection_witness :
    (validateChallenge ⟨"ab".data, 0, ⟨"ab".data, 1, none⟩⟩
      ⟨"ab".data, 1, some (0, 1)⟩).success = true := by
  rw [validator_ignores_unexpected_selection
    ⟨"ab".data, 0, ⟨"ab".data, 1, none⟩⟩ ⟨"ab".data, 1, some (0, 1)⟩ rfl]
  decide

/-! ## Unknown command identifiers (C6) -/

/-- `getCommandForOS` (and so `getCommand`) does *not* fail fast on an
unknown command identifier: it silently returns `null`. -/
theorem getCommandForOS_unknown_null :
    getCommandForOS "NOT_A_REAL_COMMAND" OS.windows = none ∧
    getCommand "NOT_A_REAL_COMMAND" OS.windows = none := by
  decide

/-- C6 (amended): requesting an unknown command identifier from
`generateChallenge` fails fast with a descriptive error naming the bad id;
`getCommandForOS` / `getCommand`, however, return `null` for unknown
identifiers instead of raising an error. -/
theorem unknown_command_behavior (ct : String) (os : OS)
    (hne : ct.isEmpty = false)
    (hgen : CHALLENGE_GENERATORS ct = none) (hcmd : COMMANDS ct = none)
    (customText : Option (List Char)) (cat : CategoryArg)
    (rText rCmd rPick rText2 rPick2 : Nat) :
    generateChallenge (some ct) customText cat os rText rCmd rPick rText2 rPick2 =
      Except.error ("Unknown command type: " ++ ct) ∧
    getCommandForOS ct os = none ∧
    getCommand ct os = none := by
  refine ⟨?_, ?_, ?_⟩
  · simp [generateChallenge, hne, hgen]
  · simp [getCommandForOS, hcmd]
  · simp [getCommand, getCommandForOS, hcmd]

/-- Witness for C6 at the concrete unknown id `"FAKE_CMD"`. -/
theorem unknown_command_behavior_witness :
    generateChallenge (some "FAKE_CMD") none CategoryArg.null OS.mac 0 0 0 0 0 =
      Except.error ("Unknown command type: " ++ "FAKE_CMD") ∧
    getCommandForOS "FAKE_CMD" OS.mac = none ∧
    getCommand "FAKE_CMD" OS.mac = none :=
  unknown_command_behavior "FAKE_CMD" OS.mac rfl rfl rfl none CategoryArg.null 0 0 0 0 0

/-! ## Key dispatcher modifier priority (C9) -/

/-- C9: on Windows and Linux an ArrowLeft event with both Ctrl and Shift
held dispatches to `selectByWord('left')` (the more specific chord wins),
while ArrowLeft with Shift but not Ctrl dispatches to
`_extendSelection('left')` — for any state and any values of the remaining
modifiers. -/
theorem ctrl_shift_arrow_priority (s : EditorState) (alt meta : Bool) :
    TerminalEditor.handleKeyDown OS.windows ⟨Key.arrowLeft, meta, alt, true, true⟩ s =
      (true, TerminalEditor.selectByWord s Dir.left) ∧
    TerminalEditor.handleKeyDown OS.linux ⟨Key.arrowLeft, meta, alt, true, true⟩ s =
      (true, TerminalEditor.selectByWord s Dir.left) ∧
    TerminalEditor.handleKeyDown OS.windows ⟨Key.arrowLeft, meta, alt, false, true⟩ s =
      (true, TerminalEditor.extendSelection s Dir.left) ∧
    TerminalEditor.handleKeyDown OS.linux ⟨Key.arrowLeft, meta, alt, false, true⟩ s =
      (true, TerminalEditor.extendSelection s Dir.left) := by
  refine ⟨?_, ?_, ?_, ?_⟩ <;> rfl

/-! ## Plain arrows collapse the selection (C10) -/

/-- C10: with a selection active, a plain cursor-left move sets the cursor
to the selection's start (`min start end`) and a plain cursor-right move to
its end (`max start end`), both clearing the selection and leaving the text
unchanged — no additional one-character movement. -/
theorem plain_arrows_collapse_selection (s : EditorState) (sel : Sel)
    (h : s.selection = some sel) :
    TerminalEditor.moveCursorLeft s =
      { s with cursorPosition := min sel.start sel.stop, selection := none } ∧
    TerminalEditor.moveCursorRight s =
      { s with cursorPosition := max sel.start sel.stop, selection := none } := by
  refine ⟨?_, ?_⟩ <;>
    simp [TerminalEditor.moveCursorLeft, TerminalEditor.moveCursorRight, h]

/-- Witness for C10: on `"abcd"` with cursor 2 and selection `[1, 3]`, the
plain arrows land exactly on the selection edges. -/
theorem plain_arrows_collapse_selection_witness :
    TerminalEditor.moveCursorLeft ⟨"abcd".data, 2, some ⟨1, 3, 1⟩⟩ =
      ⟨"abcd".data, 1, none⟩ ∧
    TerminalEditor.moveCursorRight ⟨"abcd".data, 2, some ⟨1, 3, 1⟩⟩ =
      ⟨"abcd".data, 3, none⟩ :=
  plain_arrows_collapse_selection ⟨"abcd".data, 2, some ⟨1, 3, 1⟩⟩ ⟨1, 3, 1⟩ rfl
